import Mathlib

/-!
Shallow embedding of the parameter-conversion core of the
SuperSlicer-to-OrcaSlicer profile converter (TypeScript sources:
`src/utils.ts`, `src/constants.ts`, `src/conversion.ts`), together with
theorems settling the specification claims about it.

JavaScript numbers are modelled as exact rationals with an explicit NaN
(`Option Frac`, `none` = NaN); JavaScript strings as Lean `String`;
`undefined` as `Option.none`; the mutable `Status`/`NewHash` objects as
explicitly threaded state records.
-/

namespace SS2Orca

/-- An exact rational as an unnormalized fraction with positive denominator
(kept positive by every constructor below).  Unnormalized so that all
arithmetic stays kernel-computable (no gcd). -/
structure Frac where
  num : ℤ
  den : ℤ
deriving DecidableEq

def fint (n : ℤ) : Frac := ⟨n, 1⟩

def f0 : Frac := fint 0

def fadd (a b : Frac) : Frac := ⟨a.num * b.den + b.num * a.den, a.den * b.den⟩

def fmul (a b : Frac) : Frac := ⟨a.num * b.num, a.den * b.den⟩

def fneg (a : Frac) : Frac := ⟨-a.num, a.den⟩

/-- Raw fraction division (sign moved to the numerator).  Every call site
guards against a zero divisor. -/
def fdiv0 (a b : Frac) : Frac :=
  let n := a.num * b.den
  let d := a.den * b.num
  if d < 0 then ⟨-n, -d⟩ else ⟨n, d⟩

/-- Value equality of fractions (cross multiplication). -/
def fracEq (a b : Frac) : Bool := decide (a.num * b.den = b.num * a.den)

/-- Value order of fractions (cross multiplication; denominators positive). -/
def fLt (a b : Frac) : Bool := decide (a.num * b.den < b.num * a.den)

/-- Floor of a fraction (denominator positive). -/
def ffloor (a : Frac) : ℤ := Int.fdiv a.num a.den

/-- A JavaScript number: `none` models NaN, `some q` a finite value as an
exact rational (double-precision rounding is not modelled; every value the
embedded code exercises in the claims is exactly representable). -/
abbrev JsNum := Option Frac

def jnum (n : ℤ) : JsNum := some (fint n)

/-- JS `===` on numbers: false whenever a side is NaN, else value equality. -/
def jeq : JsNum → JsNum → Bool
  | some a, some b => fracEq a b
  | _, _ => false

/-- JS multiplication; NaN propagates. -/
def jmul : JsNum → JsNum → JsNum
  | some a, some b => some (fmul a b)
  | _, _ => none

/-- JS division; NaN propagates.  Division by zero is guarded at every call
site of the embedded source, so it is mapped to NaN here. -/
def jdiv : JsNum → JsNum → JsNum
  | some a, some b => if fracEq b f0 then none else some (fdiv0 a b)
  | _, _ => none

/-- JS `x > c`; any comparison with NaN is false. -/
def jgt (x : JsNum) (c : ℤ) : Bool :=
  match x with
  | some a => fLt (fint c) a
  | none => false

/-- JS `x < c`; any comparison with NaN is false. -/
def jlt (x : JsNum) (c : ℤ) : Bool :=
  match x with
  | some a => fLt a (fint c)
  | none => false

/-- JS truthiness of a `string | undefined` value: `undefined` and `""` are
falsy, every other string truthy. -/
def truthyS : Option String → Bool
  | none => false
  | some s => if s = "" then false else true

/-- Numeric value of a decimal digit character. -/
def digitsToNat (l : List Char) : ℕ :=
  l.foldl (fun a c => 10 * a + (c.toNat - 48)) 0

/-- Kernel-computable decimal rendering of a natural number. -/
def natStr (n : ℕ) : String := ⟨Nat.toDigits 10 n⟩

/-- Last character of a string, if any. -/
def lastChar (s : String) : Option Char := s.data.getLast?

/-- Drop the last `n` characters of a string. -/
def dropLastN (s : String) (n : ℕ) : String := ⟨(s.data.reverse.drop n).reverse⟩

/-- Does the string end with the given character list? -/
def endsWithChars (s : String) (tail : List Char) : Bool :=
  tail.reverse.isPrefixOf s.data.reverse

/-- Remove characters satisfying `p` from the end of a string. -/
def dropTrailing (s : String) (p : Char → Bool) : String :=
  ⟨(s.data.reverse.dropWhile p).reverse⟩

/-- Whitespace trim on both ends (JS `String.prototype.trim` model). -/
def trimChars (s : String) : String :=
  ⟨((s.data.dropWhile Char.isWhitespace).reverse.dropWhile Char.isWhitespace).reverse⟩

/-- Split a character list at every occurrence of the delimiter (JS
`String.prototype.split` with a one-character separator). -/
def splitChar (d : Char) : List Char → List (List Char)
  | [] => [[]]
  | c :: cs =>
    let r := splitChar d cs
    if c = d then [] :: r
    else
      match r with
      | h :: t => (c :: h) :: t
      | [] => [[c]]

/-- JS `s.split(d)` for a one-character separator `d`. -/
def splitStr (s : String) (d : Char) : List String :=
  (splitChar d s.data).map (fun l => ⟨l⟩)

/-- One pass of global replacement of a (nonempty) literal pattern,
left-to-right and non-overlapping, with an explicit fuel bound. -/
def replaceListAux (pat rep : List Char) : ℕ → List Char → List Char
  | 0, l => l
  | _ + 1, [] => []
  | fuel + 1, c :: cs =>
    if pat.isPrefixOf (c :: cs) ∧ pat ≠ [] then
      rep ++ replaceListAux pat rep fuel ((c :: cs).drop pat.length)
    else c :: replaceListAux pat rep fuel cs

/-- JS `s.replace(/pat/g, rep)` for a literal, nonempty pattern. -/
def strReplace (s pat rep : String) : String :=
  ⟨replaceListAux pat.data rep.data s.data.length s.data⟩

/-- Split a leading run of decimal digits from a character list. -/
def spanDigits : List Char → List Char × List Char
  | [] => ([], [])
  | c :: rest =>
    if c.isDigit then
      let p := spanDigits rest
      (c :: p.1, p.2)
    else ([], c :: rest)

/-- Consume one optional leading sign; returns (isNegative, remainder). -/
def parseSign : List Char → Bool × List Char
  | [] => (false, [])
  | c :: rest =>
    if c = '-' then (true, rest)
    else if c = '+' then (false, rest)
    else (false, c :: rest)

/-- Optional exponent part `[eE][+-]?digits`; returns (exponent, remainder). -/
def parseExponent : List Char → ℤ × List Char
  | [] => (0, [])
  | c :: rest =>
    if c = 'e' ∨ c = 'E' then
      let sgn := parseSign rest
      let ds := spanDigits sgn.2
      if ds.1.isEmpty then (0, c :: rest)
      else ((if sgn.1 then -(digitsToNat ds.1 : ℤ) else (digitsToNat ds.1 : ℤ)), ds.2)
    else (0, c :: rest)

/-- Model of JS `parseFloat` on a character list: skip whitespace, optional
sign, longest numeric prefix `digits [. digits] [exponent]`; NaN when no
digit is found.  (The `Infinity` literal is not modelled; the embedded
source never feeds it.) -/
def parseFloatChars (cs0 : List Char) : JsNum :=
  let cs1 := cs0.dropWhile (fun c => c.isWhitespace)
  let sgn := parseSign cs1
  let ip := spanDigits sgn.2
  let fp :=
    match ip.2 with
    | c :: rest => if c = '.' then spanDigits rest else ([], ip.2)
    | [] => (([] : List Char), ([] : List Char))
  if ip.1.isEmpty ∧ fp.1.isEmpty then none
  else
    let mant : Frac :=
      ⟨(digitsToNat ip.1 : ℤ) * ((10 ^ fp.1.length : ℕ) : ℤ) + (digitsToNat fp.1 : ℤ),
       ((10 ^ fp.1.length : ℕ) : ℤ)⟩
    let ex := parseExponent fp.2
    let signed : Frac := if sgn.1 then fneg mant else mant
    some (if 0 ≤ ex.1 then ⟨signed.num * ((10 ^ ex.1.toNat : ℕ) : ℤ), signed.den⟩
          else ⟨signed.num, signed.den * ((10 ^ (-ex.1).toNat : ℕ) : ℤ)⟩)

/-- JS `parseFloat` on a string. -/
def parseFloat (s : String) : JsNum := parseFloatChars s.data

/-- Scale used to render fractional parts (20 decimal digits; exact for every
value the embedded code produces). -/
def fracScale : ℕ := 10 ^ 20

/-- Decimal rendering of a nonnegative rational: integer part, then the
fractional digits with trailing zeros removed. -/
def nonnegRatToString (q : Frac) : String :=
  let scaled : ℕ := (ffloor (fmul q (fint (fracScale : ℤ)))).toNat
  let ip := scaled / fracScale
  let fp := scaled % fracScale
  if fp = 0 then natStr ip
  else
    let fracStr : String := ⟨(natStr (fracScale + fp)).data.drop 1⟩
    let trimmed := dropTrailing fracStr (fun c => c = '0')
    natStr ip ++ "." ++ trimmed

/-- Model of JS number-to-string conversion (`String(x)`). -/
def jsNumToString : JsNum → String
  | none => "NaN"
  | some q => if fLt q f0 then "-" ++ nonnegRatToString (fneg q) else nonnegRatToString q

/-- Deterministic parser for the grammar `[+-]? digits (. digits)?`
used by the `isDecimal` / `isPercent` regexes; returns the remainder
after the longest match, `none` when there is no match. -/
def parseSignedDecimal (cs : List Char) : Option (List Char) :=
  let sgn := parseSign cs
  let d1 := spanDigits sgn.2
  if d1.1.isEmpty then none
  else
    match d1.2 with
    | c :: rest =>
      if c = '.' then
        let d2 := spanDigits rest
        if d2.1.isEmpty then some d1.2 else some d2.2
      else some d1.2
    | [] => some []

/-- Embedded `utils.isDecimal`: `/^[+-]?\d+(\.\d+)?$/` on a defined, truthy value. -/
def isDecimal (value : Option String) : Bool :=
  match value with
  | none => false
  | some s => if s = "" then false else parseSignedDecimal s.data = some []

/-- Embedded `utils.isPercent`: `/^[+-]?\d+(\.\d+)?%$/` on a defined, truthy value. -/
def isPercent (value : Option String) : Bool :=
  match value with
  | none => false
  | some s => if s = "" then false else parseSignedDecimal s.data = some ['%']

/-- Embedded `utils.removePercent`: strip one trailing `%`; `""` for falsy input. -/
def removePercent (value : Option String) : String :=
  match value with
  | none => ""
  | some s => if s = "" then "" else if lastChar s = some '%' then dropLastN s 1 else s

/-- Embedded `utils.multivalueToArray`: split on `,` when a comma is present, else on
`;`, trimming each element; empty list for falsy input. -/
def multivalueToArray (inputString : Option String) : List String :=
  match inputString with
  | none => []
  | some s =>
    if s = "" then []
    else
      let delim := if s.data.contains ',' then ',' else ';'
      (splitStr s delim).map trimChars

def squote : String := ⟨[Char.ofNat 39]⟩

def bsSquote : String := ⟨[Char.ofNat 92, Char.ofNat 39]⟩

/-- Embedded `utils.unbackslash`: replace the escape pairs `\n \t \r \\ \" \'` by
their single-character values, in exactly this order. -/
def unbackslash (str : String) : String :=
  strReplace (strReplace (strReplace (strReplace (strReplace (strReplace str
    "\\n" "\n") "\\t" "\t") "\\r" "\r") "\\\\" "\\") "\\\"" "\"") bsSquote squote

/-- Embedded `utils.percentToFloat`: pass through non-percentage values (`""` for
undefined); otherwise numeric part / 100, capped at the exact string `"2"`. -/
def percentToFloat (subjectValue : Option String) : String :=
  if ¬ truthyS subjectValue ∨ ¬ isPercent subjectValue then subjectValue.getD ""
  else
    let newFloat := jdiv (parseFloat (removePercent subjectValue)) (jnum 100)
    if jgt newFloat 2 then "2" else jsNumToString newFloat

/-- A `string | number` JavaScript value (first argument of `percentToMm`
and `mmToPercent`). -/
inductive SNum where
  | strv (s : String)
  | numv (n : JsNum)
deriving DecidableEq

/-- JS truthiness of a `string | number | undefined` value. -/
def truthySN : Option SNum → Bool
  | none => false
  | some (.strv s) => if s = "" then false else true
  | some (.numv none) => false
  | some (.numv (some q)) => !(fracEq q f0)

/-- JS `String(x)` on a `string | number` value. -/
def snToString : SNum → String
  | .strv s => s
  | .numv n => jsNumToString n

/-- Embedded `typeof x === 'number' ? x : parseFloat(String(x))`. -/
def snToNum : SNum → JsNum
  | .strv s => parseFloat s
  | .numv n => n

/-- Embedded `utils.percentToMm`. -/
def percentToMm (mmComparator : Option SNum) (percentParam : Option String) :
    Option String :=
  if ¬ truthySN mmComparator ∨ ¬ truthyS percentParam then none
  else if mmComparator = some (.strv "") ∨ percentParam = some "" then none
  else if ¬ isPercent percentParam then percentParam
  else if isPercent (some (snToString ((mmComparator.getD (.strv ""))))) then none
  else
    let mmVal := snToNum (mmComparator.getD (.strv ""))
    let percentVal := parseFloat (removePercent percentParam)
    some (jsNumToString (jmul mmVal (jdiv percentVal (jnum 100))))

/-- Embedded `utils.mmToPercent`. -/
def mmToPercent (mmComparator : Option SNum) (mmParam : Option String) :
    Option String :=
  if ¬ truthySN mmComparator ∨ ¬ truthyS mmParam then none
  else if isPercent mmParam then mmParam
  else if isPercent (some (snToString (mmComparator.getD (.strv "")))) then none
  else
    let comparator := snToNum (mmComparator.getD (.strv ""))
    let param := parseFloat (mmParam.getD "")
    if jeq comparator (jnum 0) then none
    else some (jsNumToString (jmul (jdiv param comparator) (jnum 100)) ++ "%")

/-- Embedded `utils.evaluatePrintOrder`: four-way decision table over the two flags
(undefined treated as false). -/
def evaluatePrintOrder (externalPerimetersFirst infillFirst : Option Bool) :
    String :=
  let e := externalPerimetersFirst.getD false
  let i := infillFirst.getD false
  if !e && !i then "inner wall/outer wall/infill"
  else if e && !i then "outer wall/inner wall/infill"
  else if !e && i then "infill/inner wall/outer wall"
  else if e && i then "infill/outer wall/inner wall"
  else "inner wall/outer wall/infill"

/-- Embedded `utils.evaluateIroningType`: `"no ironing"` when the flag is falsy or no
(truthy) type string was tracked. -/
def evaluateIroningType (ironing : Option Bool) (ironingType : Option String) :
    String :=
  if ironing.getD false then
    match ironingType with
    | some s => if s = "" then "no ironing" else s
    | none => "no ironing"
  else "no ironing"

/-! ## Static lookup tables (`src/constants.ts`), in source order -/

/-- JS `a || b` on strings (empty string is falsy). -/
def jsOrS (a b : String) : String := if a = "" then b else a

/-- JS `a || b` where `a` is `string | undefined`. -/
def jsOrOS (a : Option String) (b : String) : String :=
  match a with
  | some s => if s = "" then b else s
  | none => b

def filamentTypes : List (String × String) :=
  [("PET", "PETG"), ("FLEX", "TPU"), ("NYLON", "PA")]

def defaultMVS : List (String × String) :=
  [("PLA", "15"), ("PET", "10"), ("ABS", "12"), ("ASA", "12"), ("FLEX", "3.2"),
   ("NYLON", "12"), ("PVA", "12"), ("PC", "12"), ("PSU", "8"), ("HIPS", "8"),
   ("EDGE", "8"), ("NGEN", "8"), ("PP", "8"), ("PEI", "8"), ("PEEK", "8"),
   ("PEKK", "8"), ("POM", "8"), ("PVDF", "8"), ("SCAFF", "8")]

def speedSequence : List String :=
  ["perimeter_speed", "external_perimeter_speed", "solid_infill_speed",
   "infill_speed", "small_perimeter_speed", "top_solid_infill_speed",
   "gap_fill_speed", "support_material_speed",
   "support_material_interface_speed", "bridge_speed", "first_layer_speed",
   "first_layer_infill_speed"]

def speedParams : List (String × String) :=
  [("perimeter_speed", "inner_wall_speed"),
   ("external_perimeter_speed", "outer_wall_speed"),
   ("small_perimeter_speed", "small_perimeter_speed"),
   ("solid_infill_speed", "internal_solid_infill_speed"),
   ("infill_speed", "sparse_infill_speed"),
   ("top_solid_infill_speed", "top_surface_speed"),
   ("gap_fill_speed", "gap_infill_speed"),
   ("support_material_speed", "support_speed"),
   ("support_material_interface_speed", "support_interface_speed"),
   ("bridge_speed", "bridge_speed"),
   ("first_layer_speed", "initial_layer_speed"),
   ("first_layer_infill_speed", "initial_layer_infill_speed")]

def seamPositions : List (String × String) :=
  [("cost", "nearest"), ("random", "random"), ("allrandom", "random"),
   ("aligned", "aligned"), ("contiguous", "aligned"), ("rear", "back"),
   ("nearest", "nearest")]

def infillTypes : List (String × String) :=
  [("3dhoneycomb", "3dhoneycomb"), ("adaptivecubic", "adaptivecubic"),
   ("alignedrectilinear", "alignedrectilinear"),
   ("archimedeanchords", "archimedeanchords"), ("concentric", "concentric"),
   ("concentricgapfill", "concentric"), ("cubic", "cubic"), ("grid", "grid"),
   ("gyroid", "gyroid"), ("hilbertcurve", "hilbertcurve"),
   ("honeycomb", "honeycomb"), ("lightning", "lightning"), ("line", "line"),
   ("monotonic", "monotonic"), ("monotonicgapfill", "monotonic"),
   ("monotoniclines", "monotonicline"), ("octagramspiral", "octagramspiral"),
   ("rectilinear", "zig-zag"), ("rectilineargapfill", "zig-zag"),
   ("rectiwithperimeter", "zig-zag"), ("sawtooth", "zig-zag"),
   ("scatteredrectilinear", "zig-zag"), ("smooth", "monotonic"),
   ("smoothhilbert", "hilbertcurve"), ("smoothtriple", "triangles"),
   ("stars", "tri-hexagon"), ("supportcubic", "supportcubic"),
   ("triangles", "triangles")]

def supportStyles : List (String × (String × String)) :=
  [("grid", ("normal", "grid")), ("snug", ("normal", "snug")),
   ("tree", ("tree", "default")), ("organic", ("tree", "organic"))]

def supportPatterns : List (String × Bool) :=
  [("rectilinear", true), ("rectilinear-grid", true), ("honeycomb", true),
   ("lightning", true), ("default", true), ("hollow", true)]

def interfacePatterns : List (String × Bool) :=
  [("auto", true), ("rectilinear", true), ("concentric", true),
   ("rectilinear_interlaced", true), ("grid", true)]

def gcodeFlavors : List (String × String) :=
  [("klipper", "klipper"), ("mach3", "reprapfirmware"),
   ("machinekit", "reprapfirmware"), ("makerware", "reprapfirmware"),
   ("marlin", "marlin"), ("marlin2", "marlin2"),
   ("no-extrusion", "reprapfirmware"), ("repetier", "reprapfirmware"),
   ("reprap", "reprapfirmware"), ("reprapfirmware", "reprapfirmware"),
   ("sailfish", "reprapfirmware"), ("smoothie", "reprapfirmware"),
   ("teacup", "reprapfirmware"), ("sprinter", "reprapfirmware")]

def hostTypes : List (String × String) :=
  [("repetier", "repetier"), ("prusalink", "prusalink"),
   ("prusaconnect", "prusaconnect"), ("octoprint", "octoprint"),
   ("moonraker", "octoprint"), ("mks", "mks"), ("klipper", "octoprint"),
   ("flashair", "flashair"), ("duet", "duet"), ("astrobox", "astrobox")]

def zhopEnforcement : List (String × String) :=
  [("All surfaces", "All Surfaces"), ("Not on top", "Bottom Only"),
   ("Only on top", "Top Only")]

def thumbnailFormat : List (String × String) :=
  [("PNG", "PNG"), ("JPG", "JPG"), ("QOI", "QOI"), ("BIQU", "BTT_TFT")]

def multivalueParams : List (String × String) :=
  [("max_layer_height", "single"), ("min_layer_height", "single"),
   ("deretract_speed", "single"), ("default_filament_profile", "single"),
   ("machine_max_acceleration_e", "array"),
   ("machine_max_acceleration_extruding", "array"),
   ("machine_max_acceleration_retracting", "array"),
   ("machine_max_acceleration_travel", "array"),
   ("machine_max_acceleration_x", "array"),
   ("machine_max_acceleration_y", "array"),
   ("machine_max_acceleration_z", "array"),
   ("machine_max_feedrate_e", "array"), ("machine_max_feedrate_x", "array"),
   ("machine_max_feedrate_y", "array"), ("machine_max_feedrate_z", "array"),
   ("machine_max_jerk_e", "array"), ("machine_max_jerk_x", "array"),
   ("machine_max_jerk_y", "array"), ("machine_max_jerk_z", "array"),
   ("machine_min_extruding_rate", "array"),
   ("machine_min_travel_rate", "array"), ("nozzle_diameter", "single"),
   ("bed_shape", "array"), ("retract_before_wipe", "single"),
   ("retract_length_toolchange", "single"),
   ("retract_restart_extra_toolchange", "single"),
   ("retract_restart_extra", "single"), ("retract_layer_change", "single"),
   ("retract_length", "single"), ("retract_lift", "single"),
   ("retract_before_travel", "single"), ("retract_speed", "single"),
   ("thumbnails", "array"), ("extruder_offset", "single"),
   ("retract_lift_above", "single"), ("retract_lift_below", "single"),
   ("wipe", "single")]

/-! ## Data model: source profile, output hash, conversion state -/

/-- One value of the output hash (`NewHash`): `string | number | string[]`. -/
inductive NewVal where
  | nvStr (s : String)
  | nvNum (n : JsNum)
  | nvArr (l : List String)
deriving DecidableEq

/-- A parameter-map entry: one target key or a fan-out list of target keys. -/
inductive MapVal where
  | one (s : String)
  | many (l : List String)
deriving DecidableEq

/-- The per-profile-type parameter map (`parameterMap`), keyed by ini type.
The repository ships only the declaration of its data, so the embedding is
parameterized over it. -/
abbrev PMap := List (String × List (String × MapVal))

/-- A source profile: INI key/value pairs (JS object, string values). -/
abbrev SrcIni := List (String × String)

/-- The output hash being accumulated. -/
abbrev Hash := List (String × NewVal)

def lookupIni (src : SrcIni) (k : String) : Option String := List.lookup k src

/-- JS object property write: update in place when the key exists, else
append (JS objects preserve insertion order). -/
def hashSet (h : Hash) (k : String) (v : NewVal) : Hash :=
  if h.any (fun p => p.1 = k) then
    h.map (fun p => if p.1 = k then (k, v) else p)
  else h ++ [(k, v)]

/-- Embedded `typeof h[k] === 'string' ? h[k] : ''` — read of a sibling output key. -/
def hashStr (h : Hash) (k : String) : String :=
  match List.lookup k h with
  | some (.nvStr s) => s
  | _ => ""

/-- Embedded `status.toVar`: the combination flags. -/
structure ToVar where
  externalPerimetersFirst : Option Bool := none
  infillFirst : Option Bool := none
  ironing : Option Bool := none
deriving DecidableEq

/-- Embedded `status.value`: the fields of `Status.value` the conversion core reads. -/
structure StatusValue where
  nozzleSize : Option JsNum := none
  compatiblePrintersCondition : Option String := none
  compatiblePrintsCondition : Option String := none
deriving DecidableEq

/-- The fields of the global `Status` object the conversion core touches.
Ini types and slicer flavors are strings, as at JS runtime. -/
structure Status where
  slicerFlavor : Option String := none
  iniType : Option String := none
  ironingType : Option String := none
  toVar : ToVar := {}
  value : StatusValue := {}
deriving DecidableEq

/-- The mutable context of one conversion call: the source profile, the
`Status` object and the output hash, threaded explicitly. -/
structure EngState where
  sourceIni : SrcIni
  status : Status
  newHash : Hash
deriving DecidableEq

/-- Result value of `convertParams`: `string | string[] | undefined`. -/
inductive ConvValue where
  | vNone
  | vStr (s : String)
  | vArr (l : List String)
deriving DecidableEq

/-- Result of one `convertParams` call: the produced value, the state after
the call, and whether the interactive collaborator was prompted. -/
structure ConvOut where
  value : ConvValue
  st : EngState
  prompted : Bool
deriving DecidableEq

/-- Embedded `String(status.value.nozzleSize || '')`. -/
def nozzleStr (st : Status) : String :=
  match st.value.nozzleSize with
  | some n => if (match n with | some q => !(fracEq q f0) | none => false) then jsNumToString n else ""
  | none => ""

/-! ## Conversion engine (`src/conversion.ts`) -/

/-- Strip one layer of surrounding double quotes: `newValue.replace(/^"(.*)"$/, '$1')`. -/
def stripQuotes (s : String) : String :=
  if 2 ≤ s.data.length ∧ s.data.head? = some '"' ∧ lastChar s = some '"' then
    dropLastN ⟨s.data.drop 1⟩ 1
  else s

/-- The `unbackslashGcode` closure of `convertParams`. -/
def unbackslashGcode (nv : String) : String :=
  if nv = "" then "" else unbackslash (stripQuotes nv)

def lbraceS : String := ⟨[Char.ofNat 123]⟩

def rbraceS : String := ⟨[Char.ofNat 125]⟩

/-- The `handleCompatibleCondition` closure: sticky KEEP/DISCARD decision.
`choice` is the collaborator's answer to the prompt (`none` = non-string /
cancelled); the returned `Bool` records whether a prompt was issued. -/
def handleCompatibleCondition (parameter nv : String) (choice : Option String)
    (st : EngState) : String × EngState × Bool :=
  if parameter = "compatible_printers_condition" then
    if st.status.value.compatiblePrintersCondition = some "DISCARD" then ("", st, false)
    else if nv = "" ∨ st.status.value.compatiblePrintersCondition = some "KEEP" then
      (nv, st, false)
    else
      match choice with
      | some c =>
        ((if c = "KEEP" then nv else ""),
         { st with status := { st.status with
              value := { st.status.value with compatiblePrintersCondition := some c } } },
         true)
      | none => ("", st, true)
  else if parameter = "compatible_prints_condition" then
    if st.status.value.compatiblePrintsCondition = some "DISCARD" then ("", st, false)
    else if nv = "" ∨ st.status.value.compatiblePrintsCondition = some "KEEP" then
      (nv, st, false)
    else
      match choice with
      | some c =>
        ((if c = "KEEP" then nv else ""),
         { st with status := { st.status with
              value := { st.status.value with compatiblePrintsCondition := some c } } },
         true)
      | none => ("", st, true)
  else (nv, st, false)

/-- One special-case rule of `convertParams` (each constructor stands for
one closure body of the source's `specialCases` object literal). -/
inductive Rule where
  | gcodeText
  | filamentTypeR
  | filamentMVS
  | draftShield
  | extPerimeterFan
  | ironingTypeR
  | defaultFilamentProfile
  | retractLiftTop
  | compatCond
  | pctToMmNozzle
  | pctToFloatCap
  | wallTransition
  | machineLimits
  | remainingTimes
  | smBottomContact
  | supportStyleR
  | fillPatternR
  | gcodeFlavorR
  | hostTypeR
  | thumbFormatR
  | supportPatternR
  | interfacePatternR
  | seamPositionR
  | smLayerHeight
  | outputFilename
  | xySpacing
  | extrusionWidth
  | infillEveryLayers
  | completeObjects
  | extPerimeterSpeed
  | firstLayerSpeedR
  | topSolidSpeed
  | smInterfaceSpeed
  | firstLayerInfillSpeed
  | solidInfillSpeed
  | perimeterSpeedR
  | smSpeedR
  | bridgeSpeedR
  | infillSpeedR
  | smallPerimeterSpeedR
  | gapFillSpeedR
deriving DecidableEq

/-- The `specialCases` object literal: parameter name to rule, in source
order. -/
def specialCasesTable : List (String × Rule) :=
  [("start_filament_gcode", .gcodeText), ("end_filament_gcode", .gcodeText),
   ("post_process", .gcodeText), ("before_layer_gcode", .gcodeText),
   ("toolchange_gcode", .gcodeText), ("layer_gcode", .gcodeText),
   ("feature_gcode", .gcodeText), ("end_gcode", .gcodeText),
   ("pause_print_gcode", .gcodeText), ("start_gcode", .gcodeText),
   ("template_custom_gcode", .gcodeText), ("notes", .gcodeText),
   ("filament_notes", .gcodeText), ("printer_notes", .gcodeText),
   ("filament_type", .filamentTypeR),
   ("filament_max_volumetric_speed", .filamentMVS),
   ("draft_shield", .draftShield),
   ("external_perimeter_fan_speed", .extPerimeterFan),
   ("ironing_type", .ironingTypeR),
   ("default_filament_profile", .defaultFilamentProfile),
   ("retract_lift_top", .retractLiftTop),
   ("compatible_printers_condition", .compatCond),
   ("compatible_prints_condition", .compatCond),
   ("max_layer_height", .pctToMmNozzle), ("min_layer_height", .pctToMmNozzle),
   ("fuzzy_skin_point_dist", .pctToMmNozzle),
   ("fuzzy_skin_thickness", .pctToMmNozzle),
   ("small_perimeter_min_length", .pctToMmNozzle),
   ("bridge_flow_ratio", .pctToFloatCap),
   ("fill_top_flow_ratio", .pctToFloatCap),
   ("first_layer_flow_ratio", .pctToFloatCap),
   ("wall_transition_length", .wallTransition),
   ("machine_limits_usage", .machineLimits),
   ("remaining_times", .remainingTimes),
   ("support_material_bottom_contact_distance", .smBottomContact),
   ("support_material_style", .supportStyleR),
   ("fill_pattern", .fillPatternR), ("top_fill_pattern", .fillPatternR),
   ("bottom_fill_pattern", .fillPatternR), ("solid_fill_pattern", .fillPatternR),
   ("gcode_flavor", .gcodeFlavorR),
   ("host_type", .hostTypeR),
   ("thumbnails_format", .thumbFormatR),
   ("support_material_pattern", .supportPatternR),
   ("support_material_interface_pattern", .interfacePatternR),
   ("seam_position", .seamPositionR),
   ("support_material_layer_height", .smLayerHeight),
   ("output_filename_format", .outputFilename),
   ("support_material_xy_spacing", .xySpacing),
   ("extrusion_width", .extrusionWidth),
   ("infill_every_layers", .infillEveryLayers),
   ("complete_objects", .completeObjects),
   ("external_perimeter_speed", .extPerimeterSpeed),
   ("first_layer_speed", .firstLayerSpeedR),
   ("top_solid_infill_speed", .topSolidSpeed),
   ("support_material_interface_speed", .smInterfaceSpeed),
   ("first_layer_infill_speed", .firstLayerInfillSpeed),
   ("solid_infill_speed", .solidInfillSpeed),
   ("perimeter_speed", .perimeterSpeedR),
   ("support_material_speed", .smSpeedR),
   ("bridge_speed", .bridgeSpeedR),
   ("infill_speed", .infillSpeedR),
   ("small_perimeter_speed", .smallPerimeterSpeedR),
   ("gap_fill_speed", .gapFillSpeedR)]

/-- Body of one special-case closure: the rule's string result together
with the state after its side effects and the prompted flag. -/
def applyRule (r : Rule) (parameter nv : String) (choice : Option String)
    (defaultSpeed : Option String) (st : EngState) :
    String × EngState × Bool :=
  match r with
  | .gcodeText => (unbackslashGcode nv, st, false)
  | .filamentTypeR => (jsOrOS (List.lookup nv filamentTypes) nv, st, false)
  | .filamentMVS =>
    let val := parseFloat nv
    ((if jgt val 0 then jsNumToString val
      else jsOrOS (List.lookup (jsOrOS (lookupIni st.sourceIni "filament_type") "") defaultMVS) "15"),
     st, false)
  | .draftShield =>
    ((if nv = "disabled" then "0" else if nv = "enabled" then "1" else nv), st, false)
  | .extPerimeterFan =>
    let val := parseFloat nv
    ((if jlt val 0 then "0%" else jsNumToString val ++ "%"), st, false)
  | .ironingTypeR =>
    (nv, { st with status := { st.status with ironingType := some nv } }, false)
  | .defaultFilamentProfile =>
    let arr := multivalueToArray (some nv)
    (unbackslash (jsOrOS arr.head? ""), st, false)
  | .retractLiftTop =>
    let arr := multivalueToArray (some nv)
    (jsOrOS (List.lookup (jsOrOS arr.head? "") zhopEnforcement) (jsOrOS arr.head? ""), st, false)
  | .compatCond => handleCompatibleCondition parameter nv choice st
  | .pctToMmNozzle =>
    (jsOrOS (percentToMm (some (.strv (nozzleStr st.status))) (some nv)) "", st, false)
  | .pctToFloatCap => (percentToFloat (some nv), st, false)
  | .wallTransition =>
    (jsOrOS (mmToPercent (some (.strv (nozzleStr st.status))) (some nv)) "", st, false)
  | .machineLimits => ((if nv = "emit_to_gcode" then "1" else "0"), st, false)
  | .remainingTimes => ((if nv = "0" then "1" else "0"), st, false)
  | .smBottomContact =>
    ((if nv = "0" then jsOrOS (lookupIni st.sourceIni "support_material_contact_distance") "" else nv),
     st, false)
  | .supportStyleR =>
    (match List.lookup nv supportStyles with
     | some p =>
       let genstyle := if truthyS (lookupIni st.sourceIni "support_material_auto") then "auto" else "manual"
       let h1 := hashSet st.newHash "support_type" (.nvStr (p.1 ++ "(" ++ genstyle ++ ")"))
       let h2 := hashSet h1 "support_style" (.nvStr p.2)
       ("", { st with newHash := h2 }, false)
     | none => ("", st, false))
  | .fillPatternR => (jsOrOS (List.lookup nv infillTypes) nv, st, false)
  | .gcodeFlavorR => (jsOrOS (List.lookup nv gcodeFlavors) "", st, false)
  | .hostTypeR => (jsOrOS (List.lookup nv hostTypes) nv, st, false)
  | .thumbFormatR => (jsOrOS (List.lookup nv thumbnailFormat) nv, st, false)
  | .supportPatternR =>
    ((if (List.lookup nv supportPatterns).getD false then nv else "default"), st, false)
  | .interfacePatternR =>
    ((if (List.lookup nv interfacePatterns).getD false then nv else "auto"), st, false)
  | .seamPositionR => (jsOrOS (List.lookup nv seamPositions) nv, st, false)
  | .smLayerHeight => ((if jgt (parseFloat nv) 0 then "1" else "0"), st, false)
  | .outputFilename => (strReplace (strReplace nv "[" lbraceS) "]" rbraceS, st, false)
  | .xySpacing =>
    let c1 := percentToMm ((lookupIni st.sourceIni "external_perimeter_extrusion_width").map .strv) (some nv)
    let c2 := if ¬ truthyS c1 then percentToMm (some (.strv (nozzleStr st.status))) (some nv) else c1
    (jsOrOS c2 "", st, false)
  | .extrusionWidth => ((if nv = "" then "0" else nv), st, false)
  | .infillEveryLayers => ((if jgt (parseFloat nv) 0 then "1" else "0"), st, false)
  | .completeObjects =>
    ((if truthyS (some nv) then "by object" else "by layer"), st, false)
  | .extPerimeterSpeed =>
    (jsOrOS (percentToMm ((lookupIni st.sourceIni "perimeter_speed").map .strv) (some nv)) nv, st, false)
  | .firstLayerSpeedR =>
    (jsOrOS (percentToMm ((lookupIni st.sourceIni "perimeter_speed").map .strv) (some nv)) nv, st, false)
  | .topSolidSpeed =>
    (jsOrOS (percentToMm (some (.strv (hashStr st.newHash "internal_solid_infill_speed"))) (some nv)) nv,
     st, false)
  | .smInterfaceSpeed =>
    (jsOrOS (percentToMm ((lookupIni st.sourceIni "support_material_speed").map .strv) (some nv)) nv,
     st, false)
  | .firstLayerInfillSpeed =>
    let base := if st.status.slicerFlavor = some "PrusaSlicer"
      then lookupIni st.sourceIni "first_layer_speed"
      else some nv
    (jsOrOS (percentToMm ((lookupIni st.sourceIni "infill_speed").map .strv) base) nv, st, false)
  | .solidInfillSpeed =>
    let base := if st.status.slicerFlavor = some "PrusaSlicer"
      then lookupIni st.sourceIni "infill_speed"
      else defaultSpeed
    (jsOrOS (percentToMm (base.map .strv) (some nv)) nv, st, false)
  | .perimeterSpeedR =>
    ((if st.status.slicerFlavor = some "SuperSlicer"
      then jsOrOS (percentToMm (defaultSpeed.map .strv) (some nv)) nv
      else nv), st, false)
  | .smSpeedR =>
    ((if st.status.slicerFlavor = some "SuperSlicer"
      then jsOrOS (percentToMm (defaultSpeed.map .strv) (some nv)) nv
      else nv), st, false)
  | .bridgeSpeedR =>
    ((if st.status.slicerFlavor = some "SuperSlicer"
      then jsOrOS (percentToMm (defaultSpeed.map .strv) (some nv)) nv
      else nv), st, false)
  | .infillSpeedR =>
    ((if st.status.slicerFlavor = some "SuperSlicer"
      then jsOrOS (percentToMm (some (.strv (hashStr st.newHash "internal_solid_infill_speed"))) (some nv)) nv
      else nv), st, false)
  | .smallPerimeterSpeedR =>
    ((if st.status.slicerFlavor = some "SuperSlicer"
      then jsOrOS (percentToMm (some (.strv (hashStr st.newHash "sparse_infill_speed"))) (some nv)) nv
      else nv), st, false)
  | .gapFillSpeedR =>
    ((if st.status.slicerFlavor = some "SuperSlicer"
      then jsOrOS (percentToMm (some (.strv (hashStr st.newHash "sparse_infill_speed"))) (some nv)) nv
      else nv), st, false)

/-- The `specialCases` dispatch of `convertParams`: `none` when the
parameter has no special-case rule, else the rule's string result together
with the state after its side effects and the prompted flag. -/
def specialCase (parameter nv : String) (choice : Option String)
    (defaultSpeed : Option String) (st : EngState) :
    Option (String × EngState × Bool) :=
  (List.lookup parameter specialCasesTable).map
    (fun r => applyRule r parameter nv choice defaultSpeed st)

/-- The tail of `convertParams` after the multivalue step (`nv` is the
current `newValue` string). -/
def convertParamsRest (pm : PMap) (parameter : String) (choice : Option String)
    (st : EngState) (nv : String) : ConvOut :=
  let defaultSpeed : Option String :=
    if st.status.slicerFlavor = some "SuperSlicer" then lookupIni st.sourceIni "default_speed"
    else none
  if st.status.iniType = none ∨ st.status.iniType = some "" ∨
     st.status.iniType = some "unsupported" ∨
     st.status.iniType = some "physical_printer" then
    ⟨.vNone, st, false⟩
  else
    match List.lookup (st.status.iniType.getD "") pm with
    | none => ⟨.vNone, st, false⟩
    | some typeMap =>
      match List.lookup parameter typeMap with
      | some (.many keys) =>
        ⟨.vNone, { st with newHash := keys.foldl (fun h k => hashSet h k (.nvStr nv)) st.newHash }, false⟩
      | _ =>
        if parameter = "external_perimeters_first" then
          ⟨.vNone, { st with status := { st.status with
              toVar := { st.status.toVar with externalPerimetersFirst := some (truthyS (some nv)) } } }, false⟩
        else if parameter = "infill_first" then
          ⟨.vNone, { st with status := { st.status with
              toVar := { st.status.toVar with infillFirst := some (truthyS (some nv)) } } }, false⟩
        else if parameter = "ironing" then
          ⟨.vNone, { st with status := { st.status with
              toVar := { st.status.toVar with ironing := some (truthyS (some nv)) } } }, false⟩
        else
          match specialCase parameter nv choice defaultSpeed st with
          | some out => ⟨.vStr out.1, out.2.1, out.2.2⟩
          | none => ⟨.vStr nv, st, false⟩

/-- Body of `convertParams` with the parameter's looked-up source value
`nv0` made explicit. -/
def convertParamsCore (pm : PMap) (parameter : String) (choice : Option String)
    (st : EngState) (nv0 : Option String) : ConvOut :=
  if ¬ truthyS nv0 then ⟨.vNone, st, false⟩
  else if nv0 = some "nil" then ⟨.vNone, st, false⟩
  else
    let nvA := nv0.getD ""
    match List.lookup parameter multivalueParams with
    | some mvKind =>
      let array := multivalueToArray (some nvA)
      if mvKind = "single" then
        convertParamsRest pm parameter choice st (jsOrOS array.head? "")
      else ⟨.vArr array, st, false⟩
    | none => convertParamsRest pm parameter choice st nvA

/-- Embedded `conversion.convertParams`, parameterized over the parameter map `pm`
and the collaborator's would-be answer `choice` to a menu prompt. -/
def convertParams (pm : PMap) (parameter : String) (choice : Option String)
    (st : EngState) : ConvOut :=
  convertParamsCore pm parameter choice st (lookupIni st.sourceIni parameter)

/-! ## Print-parameter post-processor (`calculatePrintParams`) -/

/-- ECMA `Number.prototype.toFixed(1)` on the absolute value: the integer
`n` minimizing `|n/10 - q|`, larger `n` on ties, i.e. `⌊10q + 1/2⌋`. -/
def toFixed1Abs (q : Frac) : String :=
  let n : ℕ := (ffloor (fadd (fmul q (fint 10)) ⟨1, 2⟩)).toNat
  natStr (n / 10) ++ "." ++ natStr (n % 10)

/-- JS `x.toFixed(1)` (sign handled as in the ECMA algorithm). -/
def toFixed1 : JsNum → String
  | none => "NaN"
  | some q => if fLt q f0 then "-" ++ toFixed1Abs (fneg q) else toFixed1Abs q

/-- Embedded `formatted.replace(/\.?0+$/, '')` applied to a `toFixed(1)` result
(one fractional digit): removes the `.0` tail when the digit is zero. -/
def stripFixedZeros (s : String) : String :=
  if endsWithChars s ['.', '0'] then dropLastN s 2 else s

/-- One iteration body of the speed-translation loop: consume the result
`out` of the `convertParams` call for `parameter`, formatting plain
decimals to one decimal place and writing the renamed speed key. -/
def speedStep (parameter : String) (out : ConvOut) : EngState :=
  match out.value with
  | .vStr newValue =>
    if newValue = "" then out.st
    else
      let formatted :=
        if isDecimal (some newValue) then stripFixedZeros (toFixed1 (parseFloat newValue))
        else newValue
      { out.st with newHash := (hashSet out.st.newHash
          ((List.lookup parameter speedParams).getD "") (.nvStr formatted)) }
  | _ => out.st

/-- The speed-translation loop of `calculatePrintParams`, over the fixed
`speedSequence`. -/
def speedLoop (pm : PMap) (choice : Option String) :
    List String → EngState → EngState
  | [], st => st
  | parameter :: rest, st =>
    let st' :=
      if ¬ truthyS (lookupIni st.sourceIni parameter) then st
      else speedStep parameter (convertParams pm parameter choice st)
    speedLoop pm choice rest st'

def overhangSpeedKeys : List String :=
  ["overhang_1_4_speed", "overhang_2_4_speed", "overhang_3_4_speed",
   "overhang_4_4_speed"]

/-- The four threshold speeds gathered for the dynamic-overhang
translation: one comma-separated field for SuperSlicer sources, four
discretely-named fields otherwise. -/
def gatherOverhangSpeeds (src : SrcIni) (flavor : Option String) : List String :=
  if flavor = some "SuperSlicer" then
    splitStr ((List.lookup "dynamic_overhang_speeds" src).getD "") ','
  else
    [jsOrOS (List.lookup "overhang_speed_0" src) "",
     jsOrOS (List.lookup "overhang_speed_1" src) "",
     jsOrOS (List.lookup "overhang_speed_2" src) "",
     jsOrOS (List.lookup "overhang_speed_3" src) ""]

/-- The gathered threshold speeds, read from the current state. -/
def overhangSpeeds (st2 : EngState) : List String :=
  gatherOverhangSpeeds st2.sourceIni st2.status.slicerFlavor

/-- The dynamic-overhang write section of `calculatePrintParams`: when
enabled, the four fixed output keys receive the gathered speeds in
reversed order (`overhangSpeedKeys[idx] = speeds[3 - idx] || ''`). -/
def calcOverhang (st2 : EngState) (enable : Bool) : EngState :=
  if enable then
    let speeds := overhangSpeeds st2
    let h0 := hashSet st2.newHash "overhang_1_4_speed" (.nvStr (jsOrOS (speeds.get? 3) ""))
    let h1 := hashSet h0 "overhang_2_4_speed" (.nvStr (jsOrOS (speeds.get? 2) ""))
    let h2 := hashSet h1 "overhang_3_4_speed" (.nvStr (jsOrOS (speeds.get? 1) ""))
    let h3 := hashSet h2 "overhang_4_4_speed" (.nvStr (jsOrOS (speeds.get? 0) ""))
    { st2 with newHash := h3 }
  else st2

/-- Embedded `conversion.calculatePrintParams`: speed table, dynamic-overhang
translation, print order and ironing type.  The collaborator is never
prompted on this path (no speed parameter reaches the compatibility rules),
so its answer is fixed to `none`. -/
def calculatePrintParams (pm : PMap) (st0 : EngState) : EngState :=
  let st1 := speedLoop pm none speedSequence st0
  let enableDynamicOverhangSpeeds := truthyS (lookupIni st1.sourceIni "enable_dynamic_overhang_speeds")
  let st2 := { st1 with newHash := (hashSet st1.newHash "enable_overhang_speed"
      (.nvStr (if enableDynamicOverhangSpeeds then "1" else "0"))) }
  let st3 := calcOverhang st2 enableDynamicOverhangSpeeds
  let st4 := { st3 with newHash := (hashSet st3.newHash "wall_infill_order"
      (.nvStr (evaluatePrintOrder st3.status.toVar.externalPerimetersFirst
          st3.status.toVar.infillFirst))) }
  { st4 with newHash := (hashSet st4.newHash "ironing_type"
      (.nvStr (evaluateIroningType st4.status.toVar.ironing st4.status.ironingType))) }

/-! ## INI-type detector (`detectIniType`) -/

/-- Stable insertion of one (type, count) pair into a weakly-descending
list: placed before the first element it weakly dominates (this is the
stable descending order produced by JS `sort((a, b) => b[1] - a[1])`). -/
def insertDesc (x : String × ℕ) : List (String × ℕ) → List (String × ℕ)
  | [] => [x]
  | y :: ys => if y.2 ≤ x.2 then x :: y :: ys else y :: insertDesc x ys

/-- Stable sort by descending count. -/
def sortDesc : List (String × ℕ) → List (String × ℕ)
  | [] => []
  | x :: xs => insertDesc x (sortDesc xs)

/-- The per-type match count: how many of the source profile's parameter
names appear in the given type's parameter map. -/
def countMatches (typeMap : List (String × MapVal)) (sourceIni : SrcIni) : ℕ :=
  (sourceIni.filter (fun q => (List.lookup q.1 typeMap).isSome)).length

def typeCounts (pm : PMap) (sourceIni : SrcIni) : List (String × ℕ) :=
  pm.map (fun p => (p.1, countMatches p.2 sourceIni))

/-- Embedded `conversion.detectIniType`: explicit `ini_type` is trusted verbatim;
otherwise the type with the highest match count, if at least one count
reaches 10. -/
def detectIniType (pm : PMap) (sourceIni : SrcIni) : Option String :=
  if truthyS (lookupIni sourceIni "ini_type") then lookupIni sourceIni "ini_type"
  else
    let counts := typeCounts pm sourceIni
    let hasValidType := counts.any (fun p => 10 ≤ p.2)
    if ¬ hasValidType then none
    else (sortDesc counts).head?.map Prod.fst

/-! ## Specification-side transcriptions

Definitions below transcribe the specification's wording of the numeric
helpers (for refinement comparison with the source embeddings above), plus
amended variants where the source deviates. -/

/-- The spec's case list for `percentToFloat`: non-percentage values pass
through (`""` for undefined); percentages divide by 100, capped at `"2"`. -/
def percentToFloatSpec (s : Option String) : String :=
  match s with
  | none => ""
  | some str =>
    if ¬ isPercent (some str) then str
    else
      let v := jdiv (parseFloat (removePercent (some str))) (jnum 100)
      if jgt v 2 then "2" else jsNumToString v

/-- The claim's case list for `percentToMm`: no result only for undefined or
empty-string arguments; non-percentage `pct` passes through; percentage
`base` refuses; otherwise the string form of `base * pct / 100`. -/
def percentToMmSpec (base : Option SNum) (pct : Option String) : Option String :=
  if base = none ∨ base = some (.strv "") ∨ pct = none ∨ pct = some "" then none
  else if ¬ isPercent pct then pct
  else if isPercent (some (snToString (base.getD (.strv "")))) then none
  else some (jsNumToString (jmul (snToNum (base.getD (.strv "")))
      (jdiv (parseFloat (removePercent pct)) (jnum 100))))

/-- Amended case list for `percentToMm`: the no-result guard covers every
falsy argument (undefined, empty string, or a number equal to 0 or NaN). -/
def percentToMmAmended (base : Option SNum) (pct : Option String) : Option String :=
  if ¬ truthySN base ∨ ¬ truthyS pct then none
  else if ¬ isPercent pct then pct
  else if isPercent (some (snToString (base.getD (.strv "")))) then none
  else some (jsNumToString (jmul (snToNum (base.getD (.strv "")))
      (jdiv (parseFloat (removePercent pct)) (jnum 100))))

/-- The claim's case list for `mmToPercent`. -/
def mmToPercentSpec (base : Option SNum) (mm : Option String) : Option String :=
  if base = none ∨ base = some (.strv "") ∨ mm = none ∨ mm = some "" then none
  else if isPercent mm then mm
  else if isPercent (some (snToString (base.getD (.strv "")))) then none
  else if jeq (snToNum (base.getD (.strv ""))) (jnum 0) then none
  else some (jsNumToString (jmul (jdiv (parseFloat (mm.getD ""))
      (snToNum (base.getD (.strv "")))) (jnum 100)) ++ "%")

/-- Amended case list for `mmToPercent`: the no-result guard covers every
falsy `base` (undefined, empty string, or a number equal to 0 or NaN). -/
def mmToPercentAmended (base : Option SNum) (mm : Option String) : Option String :=
  if ¬ truthySN base ∨ ¬ truthyS mm then none
  else if isPercent mm then mm
  else if isPercent (some (snToString (base.getD (.strv "")))) then none
  else if jeq (snToNum (base.getD (.strv ""))) (jnum 0) then none
  else some (jsNumToString (jmul (jdiv (parseFloat (mm.getD ""))
      (snToNum (base.getD (.strv "")))) (jnum 100)) ++ "%")

/-- The first entry of a (type, count) list attaining the maximal count
(ties resolved to the earliest entry). -/
def firstMax : List (String × ℕ) → Option (String × ℕ)
  | [] => none
  | x :: xs =>
    match firstMax xs with
    | none => some x
    | some m => if m.2 ≤ x.2 then some x else some m

/-- The sticky-decision slot belonging to a compatibility-condition
parameter. -/
def compatSlot (p : String) (st : EngState) : Option String :=
  if p = "compatible_printers_condition" then
    st.status.value.compatiblePrintersCondition
  else st.status.value.compatiblePrintsCondition

/-- Store a (string) answer in the sticky-decision slot belonging to a
compatibility-condition parameter. -/
def compatSetSlot (p c : String) (st : EngState) : EngState :=
  if p = "compatible_printers_condition" then
    { st with status := { st.status with
        value := { st.status.value with compatiblePrintersCondition := some c } } }
  else
    { st with status := { st.status with
        value := { st.status.value with compatiblePrintsCondition := some c } } }

/-! ## Concrete fixtures used by witnesses and counterexamples -/

/-- A small concrete parameter map with all three output profile types. -/
def pmW : PMap :=
  [("print", [("layer_height", .one "layer_height")]),
   ("filament", [("bed_temperature", .many ["hot_plate_temp", "cool_plate_temp"])]),
   ("printer", [])]

/-- A concrete conversion state over a given source profile (print type,
PrusaSlicer flavor, no nozzle size, no sticky decisions). -/
def mkStW (src : SrcIni) : EngState :=
  { sourceIni := src,
    status := { slicerFlavor := some "PrusaSlicer", iniType := some "print" },
    newHash := [] }

def stW8 : EngState := mkStW [("ironing", "1")]

def stW10 : EngState :=
  mkStW [("support_material_style", "snug"), ("support_material_auto", "0")]

def stC2 : EngState :=
  { mkStW [("compatible_printers_condition", "")] with
    status := { slicerFlavor := some "PrusaSlicer", iniType := some "print",
                value := { compatiblePrintersCondition := some "KEEP" } } }

def stW2 : EngState := mkStW [("compatible_printers_condition", "cond")]

def stC1 : EngState := mkStW [("max_layer_height", "50%")]

def stW4 : EngState :=
  mkStW [("enable_dynamic_overhang_speeds", "1"), ("overhang_speed_0", "100"),
         ("overhang_speed_1", "80"), ("overhang_speed_2", "60"),
         ("overhang_speed_3", "40")]

/-! ## Claim theorems -/

/-- C7: `percentToFloat` returns a non-percentage input unchanged (and the
empty string for an undefined input); a percentage input is divided by 100
and rendered in its default string form, except that any result greater
than 2 is capped to the exact string `"2"`; in particular
`percentToFloat "250%" = "2"`, `percentToFloat "100%" = "1"`,
`percentToFloat "50" = "50"`. -/
theorem percentToFloat_matches_spec :
    (∀ s : Option String, percentToFloat s = percentToFloatSpec s) ∧
    percentToFloat (some "250%") = "2" ∧
    percentToFloat (some "100%") = "1" ∧
    percentToFloat (some "50") = "50" := by
  refine ⟨fun s => ?_, by decide, by decide, by decide⟩
  cases s with
  | none => rfl
  | some str =>
    by_cases hs : str = ""
    · subst hs; rfl
    · simp [percentToFloat, percentToFloatSpec, truthyS, hs]

/-- C5 counterexample: at `base = 0` (a number, neither undefined nor the
empty string) with the non-percentage `pct = "5"`, the claim's case list
produces `"5"` (tolerant pass-through), but `percentToMm` returns no
result because the number `0` is falsy under the source's guard. -/
theorem percentToMm_claim_counterexample :
    percentToMm (some (.numv (jnum 0))) (some "5") = none ∧
    percentToMmSpec (some (.numv (jnum 0))) (some "5") = some "5" :=
  ⟨by decide, by decide⟩

/-- C5 (amended): `percentToMm` returns no result when either argument is
falsy (undefined, the empty string, or a number equal to 0 or NaN); a
non-percentage `pct` passes through unchanged; a percentage-shaped `base`
gives no result; otherwise the result is the string form of
`base * pct / 100`; with `percentToMm 10 "50%" = "5"`,
`percentToMm undefined "50%"` absent, and `percentToMm 10 "5" = "5"`. -/
theorem percentToMm_matches_amended :
    (∀ base pct, percentToMm base pct = percentToMmAmended base pct) ∧
    percentToMm (some (.numv (jnum 10))) (some "50%") = some "5" ∧
    percentToMm none (some "50%") = none ∧
    percentToMm (some (.numv (jnum 10))) (some "5") = some "5" := by
  refine ⟨fun base pct => ?_, by decide, by decide, by decide⟩
  unfold percentToMm percentToMmAmended
  cases hB : truthySN base with
  | false => simp [hB]
  | true =>
    cases hP : truthyS pct with
    | false => simp [hB, hP]
    | true =>
      have hdead : ¬ (base = some (.strv "") ∨ pct = some "") := by
        rintro (e | e) <;> subst e <;> simp [truthySN, truthyS] at hB hP
      simp [hB, hP, hdead]

/-- C6 counterexample: at `base = NaN` (a number, neither undefined nor the
empty string, not a percentage string, and not zero) with `mm = "5"`, the
claim's case list reaches its "otherwise" branch and produces `"NaN%"`,
but `mmToPercent` returns no result because NaN is falsy under the
source's guard. -/
theorem mmToPercent_claim_counterexample :
    mmToPercent (some (.numv none)) (some "5") = none ∧
    mmToPercentSpec (some (.numv none)) (some "5") = some ("NaN%") :=
  ⟨by decide, by decide⟩

/-- C6 (amended): `mmToPercent` returns no result when either argument is
falsy (undefined, the empty string, or — for the base — a number equal to
0 or NaN); an `mm` that is already a percentage passes through unchanged; a
percentage-shaped `base` gives no result, as does a base whose numeric
value is zero; otherwise the result is `(mm / base) * 100` suffixed with
`%`; with `mmToPercent 10 "5" = "50%"` and `mmToPercent 0 "5"` absent. -/
theorem mmToPercent_matches_amended :
    (∀ base mm, mmToPercent base mm = mmToPercentAmended base mm) ∧
    mmToPercent (some (.numv (jnum 10))) (some "5") = some "50%" ∧
    mmToPercent (some (.numv (jnum 0))) (some "5") = none := by
  refine ⟨fun base mm => rfl, by decide, by decide⟩

theorem truthyS_of_ne {v : String} (h : v ≠ "") : truthyS (some v) = true := by
  simp [truthyS, h]

/-- C8: a `convertParams` call on one of the three combination-flag
parameters with a non-empty, non-`nil` value under a valid profile type
writes nothing to the output hash and produces nothing; its only effect is
setting the corresponding `ConversionState` boolean to the truthiness of
the source string (which is `true` for any non-empty string). -/
theorem combination_flags_update_state_only
    (pm : PMap) (p : String) (choice : Option String) (st : EngState)
    (tm : List (String × MapVal)) (v : String)
    (hp : p = "external_perimeters_first" ∨ p = "infill_first" ∨ p = "ironing")
    (hv : lookupIni st.sourceIni p = some v) (hne : v ≠ "") (hnil : v ≠ "nil")
    (h1 : st.status.iniType ≠ none) (h2 : st.status.iniType ≠ some "")
    (h3 : st.status.iniType ≠ some "unsupported")
    (h4 : st.status.iniType ≠ some "physical_printer")
    (htm : List.lookup (st.status.iniType.getD "") pm = some tm)
    (hnoarr : ∀ l, List.lookup p tm ≠ some (.many l)) :
    truthyS (some v) = true ∧
    convertParams pm p choice st =
      ⟨.vNone,
       { st with status := { st.status with toVar :=
          (if p = "external_perimeters_first" then
            { st.status.toVar with externalPerimetersFirst := some (truthyS (some v)) }
          else if p = "infill_first" then
            { st.status.toVar with infillFirst := some (truthyS (some v)) }
          else
            { st.status.toVar with ironing := some (truthyS (some v)) }) } },
       false⟩ := by
  refine ⟨truthyS_of_ne hne, ?_⟩
  have hmv : List.lookup p multivalueParams = none := by
    rcases hp with rfl | rfl | rfl <;> decide
  cases hlk : List.lookup p tm with
  | none =>
    rcases hp with rfl | rfl | rfl <;>
      simp [convertParams, convertParamsCore, hv, truthyS_of_ne hne, hnil, hmv, convertParamsRest,
        h1, h2, h3, h4, htm, hlk]
  | some mv =>
    cases mv with
    | one s =>
      rcases hp with rfl | rfl | rfl <;>
        simp [convertParams, convertParamsCore, hv, truthyS_of_ne hne, hnil, hmv, convertParamsRest,
          h1, h2, h3, h4, htm, hlk]
    | many l => exact absurd hlk (hnoarr l)

theorem lookup_cons_self (k : String) (b : NewVal) (t : Hash) :
    List.lookup k ((k, b) :: t) = some b := by
  simp [List.lookup_cons]

theorem lookup_cons_of_ne (k a : String) (b : NewVal) (t : Hash)
    (h : k ≠ a) : List.lookup k ((a, b) :: t) = List.lookup k t := by
  simp [List.lookup_cons, beq_false_of_ne h]

theorem lookup_map_replace (k : String) (v : NewVal) (t : Hash)
    (hany : (t.any fun p => p.1 = k) = true) :
    List.lookup k (t.map (fun p => if p.1 = k then (k, v) else p)) = some v := by
  induction t with
  | nil => simp at hany
  | cons a t ih =>
    by_cases hk : a.1 = k
    · simp only [List.map_cons, if_pos hk]
      exact lookup_cons_self k v _
    · simp only [List.any_cons, decide_eq_true_eq, hk, false_or] at hany
      simp only [List.map_cons, if_neg hk]
      rw [lookup_cons_of_ne _ _ _ _ (fun e => hk e.symm)]
      exact ih hany

theorem lookup_map_replace_ne (k k' : String) (v : NewVal) (t : Hash)
    (hne : k ≠ k') :
    List.lookup k (t.map (fun p => if p.1 = k' then (k', v) else p)) =
      List.lookup k t := by
  induction t with
  | nil => simp
  | cons a t ih =>
    by_cases hk : a.1 = k'
    · simp only [List.map_cons, if_pos hk]
      rw [lookup_cons_of_ne _ _ _ _ hne, ih]
      rw [lookup_cons_of_ne _ _ _ _ (hk ▸ hne)]
    · simp only [List.map_cons, if_neg hk]
      by_cases hak : k = a.1
      · subst hak
        rw [lookup_cons_self, lookup_cons_self]
      · rw [lookup_cons_of_ne _ _ _ _ hak, lookup_cons_of_ne _ _ _ _ hak, ih]

theorem lookup_append_last (k : String) (v : NewVal) (t : Hash)
    (hany : (t.any fun p => p.1 = k) = false) :
    List.lookup k (t ++ [(k, v)]) = some v := by
  induction t with
  | nil => simp [lookup_cons_self]
  | cons a t ih =>
    simp only [List.any_cons, Bool.or_eq_false_iff, decide_eq_false_iff_not] at hany
    rw [List.cons_append, lookup_cons_of_ne _ _ _ _ (fun e => hany.1 e.symm)]
    exact ih hany.2

theorem lookup_append_of_ne (k k' : String) (v : NewVal) (t : Hash)
    (hne : k ≠ k') : List.lookup k (t ++ [(k', v)]) = List.lookup k t := by
  induction t with
  | nil =>
    rw [List.nil_append, lookup_cons_of_ne _ _ _ _ hne]
  | cons a t ih =>
    by_cases hak : k = a.1
    · subst hak
      rw [List.cons_append, lookup_cons_self, lookup_cons_self]
    · rw [List.cons_append, lookup_cons_of_ne _ _ _ _ hak,
        lookup_cons_of_ne _ _ _ _ hak, ih]

/-- Reading back the key just written by `hashSet`. -/
theorem lookup_hashSet_self (h : Hash) (k : String) (v : NewVal) :
    List.lookup k (hashSet h k v) = some v := by
  unfold hashSet
  by_cases hany : (h.any fun p => p.1 = k) = true
  · rw [if_pos hany]
    exact lookup_map_replace k v h hany
  · rw [if_neg hany]
    exact lookup_append_last k v h (Bool.not_eq_true _ ▸ hany)

/-- A `hashSet` write to a different key preserves a lookup. -/
theorem lookup_hashSet_ne (h : Hash) (k k' : String) (v : NewVal)
    (hne : k ≠ k') : List.lookup k (hashSet h k' v) = List.lookup k h := by
  unfold hashSet
  by_cases hany : (h.any fun p => p.1 = k') = true
  · rw [if_pos hany]
    exact lookup_map_replace_ne k k' v h hne
  · rw [if_neg hany]
    exact lookup_append_of_ne k k' v h hne

/-- C10: a `convertParams` call on `support_material_style` whose value is
recognized by the support-style table writes `support_type` as the mapped
type suffixed with `(auto)` exactly when `support_material_auto` holds any
non-empty string (`"0"` included, it being truthy) and `(manual)` when that
entry is absent or empty, writes `support_style` to the mapped style, and
itself produces the empty string; for an unrecognized (non-empty, non-`nil`)
value neither key is written and the empty string is still produced. -/
theorem support_material_style_writes_two_keys
    (pm : PMap) (choice : Option String) (st : EngState)
    (tm : List (String × MapVal)) (v : String)
    (hv : lookupIni st.sourceIni "support_material_style" = some v)
    (hne : v ≠ "") (hnil : v ≠ "nil")
    (h1 : st.status.iniType ≠ none) (h2 : st.status.iniType ≠ some "")
    (h3 : st.status.iniType ≠ some "unsupported")
    (h4 : st.status.iniType ≠ some "physical_printer")
    (htm : List.lookup (st.status.iniType.getD "") pm = some tm)
    (hnoarr : ∀ l, List.lookup "support_material_style" tm ≠ some (.many l)) :
    truthyS (some "0") = true ∧ truthyS (some "") = false ∧ truthyS none = false ∧
    (∀ ts ss, List.lookup v supportStyles = some (ts, ss) →
      let gen := if truthyS (lookupIni st.sourceIni "support_material_auto")
                 then "auto" else "manual"
      let out := convertParams pm "support_material_style" choice st
      out.value = .vStr "" ∧
      List.lookup "support_type" out.st.newHash =
        some (.nvStr (ts ++ "(" ++ gen ++ ")")) ∧
      List.lookup "support_style" out.st.newHash = some (.nvStr ss) ∧
      out.st.sourceIni = st.sourceIni ∧ out.st.status = st.status) ∧
    (List.lookup v supportStyles = none →
      convertParams pm "support_material_style" choice st = ⟨.vStr "", st, false⟩) := by
  refine ⟨rfl, rfl, rfl, ?_, ?_⟩
  · intro ts ss hstyle
    have hmv : List.lookup "support_material_style" multivalueParams = none := by decide
    have hkeys : ("support_type" : String) ≠ "support_style" := by decide
    have hrule : List.lookup "support_material_style" specialCasesTable = some .supportStyleR := by
      decide
    cases hlk : List.lookup "support_material_style" tm with
    | none =>
      simp [convertParams, convertParamsCore, hv, truthyS_of_ne hne, hnil, hmv, convertParamsRest,
        h1, h2, h3, h4, htm, hlk, specialCase, hrule, applyRule, hstyle,
        lookup_hashSet_self, lookup_hashSet_ne _ _ _ _ hkeys]
    | some mv =>
      cases mv with
      | one s =>
        simp [convertParams, convertParamsCore, hv, truthyS_of_ne hne, hnil, hmv, convertParamsRest,
          h1, h2, h3, h4, htm, hlk, specialCase, hrule, applyRule, hstyle,
          lookup_hashSet_self, lookup_hashSet_ne _ _ _ _ hkeys]
      | many l => exact absurd hlk (hnoarr l)
  · intro hstyle
    have hmv : List.lookup "support_material_style" multivalueParams = none := by decide
    have hrule : List.lookup "support_material_style" specialCasesTable = some .supportStyleR := by
      decide
    cases hlk : List.lookup "support_material_style" tm with
    | none =>
      simp [convertParams, convertParamsCore, hv, truthyS_of_ne hne, hnil, hmv, convertParamsRest,
        h1, h2, h3, h4, htm, hlk, specialCase, hrule, applyRule, hstyle]
    | some mv =>
      cases mv with
      | one s =>
        simp [convertParams, convertParamsCore, hv, truthyS_of_ne hne, hnil, hmv, convertParamsRest,
          h1, h2, h3, h4, htm, hlk, specialCase, hrule, applyRule, hstyle]
      | many l => exact absurd hlk (hnoarr l)

theorem hcc_frame (p nv : String) (c : Option String) (st : EngState) :
    (handleCompatibleCondition p nv c st).2.1.sourceIni = st.sourceIni ∧
    (handleCompatibleCondition p nv c st).2.1.newHash = st.newHash ∧
    (handleCompatibleCondition p nv c st).2.1.status.slicerFlavor = st.status.slicerFlavor ∧
    (handleCompatibleCondition p nv c st).2.1.status.iniType = st.status.iniType ∧
    (handleCompatibleCondition p nv c st).2.1.status.toVar = st.status.toVar ∧
    (handleCompatibleCondition p nv c st).2.1.status.value.nozzleSize = st.status.value.nozzleSize := by
  cases c <;>
    (unfold handleCompatibleCondition; split_ifs <;>
      exact ⟨rfl, rfl, rfl, rfl, rfl, rfl⟩)

theorem applyRule_frame (r : Rule) (p nv : String) (c : Option String)
    (ds : Option String) (st : EngState) :
    (applyRule r p nv c ds st).2.1.sourceIni = st.sourceIni ∧
    (applyRule r p nv c ds st).2.1.status.slicerFlavor = st.status.slicerFlavor ∧
    (applyRule r p nv c ds st).2.1.status.iniType = st.status.iniType ∧
    (applyRule r p nv c ds st).2.1.status.value.nozzleSize = st.status.value.nozzleSize := by
  cases r <;>
    first
    | exact ⟨rfl, rfl, rfl, rfl⟩
    | (obtain ⟨e1, -, e3, e4, -, e6⟩ := hcc_frame p nv c st
       exact ⟨e1, e3, e4, e6⟩)
    | (cases hlk : List.lookup nv supportStyles <;> simp [applyRule, hlk])

theorem specialCase_frame (p nv : String) (c : Option String)
    (ds : Option String) (st : EngState) (o : String × EngState × Bool)
    (h : specialCase p nv c ds st = some o) :
    o.2.1.sourceIni = st.sourceIni ∧
    o.2.1.status.slicerFlavor = st.status.slicerFlavor ∧
    o.2.1.status.iniType = st.status.iniType ∧
    o.2.1.status.value.nozzleSize = st.status.value.nozzleSize := by
  unfold specialCase at h
  rcases Option.map_eq_some'.mp h with ⟨r, -, rfl⟩
  exact applyRule_frame r p nv c ds st

theorem dispatch_frame (p nv : String) (c ds : Option String) (st : EngState) :
    ((match specialCase p nv c ds st with
      | some out => (⟨.vStr out.1, out.2.1, out.2.2⟩ : ConvOut)
      | none => ⟨.vStr nv, st, false⟩) : ConvOut).st.sourceIni = st.sourceIni ∧
    ((match specialCase p nv c ds st with
      | some out => (⟨.vStr out.1, out.2.1, out.2.2⟩ : ConvOut)
      | none => ⟨.vStr nv, st, false⟩) : ConvOut).st.status.slicerFlavor = st.status.slicerFlavor ∧
    ((match specialCase p nv c ds st with
      | some out => (⟨.vStr out.1, out.2.1, out.2.2⟩ : ConvOut)
      | none => ⟨.vStr nv, st, false⟩) : ConvOut).st.status.iniType = st.status.iniType ∧
    ((match specialCase p nv c ds st with
      | some out => (⟨.vStr out.1, out.2.1, out.2.2⟩ : ConvOut)
      | none => ⟨.vStr nv, st, false⟩) : ConvOut).st.status.value.nozzleSize = st.status.value.nozzleSize := by
  cases hsc : specialCase p nv c ds st with
  | some out => simpa using specialCase_frame p nv c ds st out hsc
  | none => exact ⟨rfl, rfl, rfl, rfl⟩

theorem convertParamsRest_frame (pm : PMap) (p : String) (c : Option String)
    (st : EngState) (nv : String) :
    (convertParamsRest pm p c st nv).st.sourceIni = st.sourceIni ∧
    (convertParamsRest pm p c st nv).st.status.slicerFlavor = st.status.slicerFlavor ∧
    (convertParamsRest pm p c st nv).st.status.iniType = st.status.iniType ∧
    (convertParamsRest pm p c st nv).st.status.value.nozzleSize = st.status.value.nozzleSize := by
  unfold convertParamsRest
  split <;>
    (split
     · exact ⟨rfl, rfl, rfl, rfl⟩
     · split
       · exact ⟨rfl, rfl, rfl, rfl⟩
       · split
         · exact ⟨rfl, rfl, rfl, rfl⟩
         · split_ifs
           · exact ⟨rfl, rfl, rfl, rfl⟩
           · exact ⟨rfl, rfl, rfl, rfl⟩
           · exact ⟨rfl, rfl, rfl, rfl⟩
           · exact dispatch_frame p nv c _ st)

theorem convertParams_frame (pm : PMap) (p : String) (c : Option String)
    (st : EngState) :
    (convertParams pm p c st).st.sourceIni = st.sourceIni ∧
    (convertParams pm p c st).st.status.slicerFlavor = st.status.slicerFlavor ∧
    (convertParams pm p c st).st.status.iniType = st.status.iniType ∧
    (convertParams pm p c st).st.status.value.nozzleSize = st.status.value.nozzleSize := by
  unfold convertParams convertParamsCore
  split <;> (try split) <;> (try split) <;> (try split) <;>
    first
    | exact ⟨rfl, rfl, rfl, rfl⟩
    | exact convertParamsRest_frame pm p c st _

theorem speedLoop_frame (pm : PMap) (c : Option String) (l : List String)
    (st : EngState) :
    (speedLoop pm c l st).sourceIni = st.sourceIni ∧
    (speedLoop pm c l st).status.slicerFlavor = st.status.slicerFlavor := by
  induction l generalizing st with
  | nil => exact ⟨rfl, rfl⟩
  | cons p rest ih =>
    have step : ∀ st2 : EngState, st2.sourceIni = st.sourceIni →
        st2.status.slicerFlavor = st.status.slicerFlavor →
        (speedLoop pm c rest st2).sourceIni = st.sourceIni ∧
        (speedLoop pm c rest st2).status.slicerFlavor = st.status.slicerFlavor :=
      fun st2 e1 e2 => ⟨((ih st2).1).trans e1, ((ih st2).2).trans e2⟩
    unfold speedLoop
    refine step _ ?_ ?_ <;>
      (split
       · rfl
       · unfold speedStep
         split <;> (try split) <;>
           first
           | exact (convertParams_frame pm p c st).1
           | exact (convertParams_frame pm p c st).2.1)

theorem calcOverhang_frame (st2 : EngState) (e : Bool) :
    (calcOverhang st2 e).sourceIni = st2.sourceIni ∧
    (calcOverhang st2 e).status = st2.status := by
  unfold calcOverhang
  split <;> exact ⟨rfl, rfl⟩

/-- C9: neither `convertParams` nor `calculatePrintParams` ever modifies
the source profile map: the key/value list of `sourceIni` after the call
is identical to the one before (the source profile is read-only to the
conversion core). -/
theorem source_profile_read_only :
    (∀ pm p choice st, (convertParams pm p choice st).st.sourceIni = st.sourceIni) ∧
    (∀ pm st, (calculatePrintParams pm st).sourceIni = st.sourceIni) := by
  refine ⟨fun pm p choice st => (convertParams_frame pm p choice st).1, fun pm st => ?_⟩
  unfold calculatePrintParams
  have h1 := (speedLoop_frame pm none speedSequence st).1
  generalize hs1 : speedLoop pm none speedSequence st = s1 at h1 ⊢
  exact (calcOverhang_frame _ _).1.trans h1

/-- Under the standard reachability conditions (truthy non-`nil` value, no
multivalue registration, valid profile type, no fan-out mapping, not a
combination flag), `convertParams` returns exactly the dispatched
special-case rule's result. -/
theorem convertParams_reaches_rule
    (pm : PMap) (p : String) (choice : Option String) (st : EngState)
    (tm : List (String × MapVal)) (v : String) (r : Rule)
    (hv : lookupIni st.sourceIni p = some v) (hne : v ≠ "") (hnil : v ≠ "nil")
    (hmv : List.lookup p multivalueParams = none)
    (h1 : st.status.iniType ≠ none) (h2 : st.status.iniType ≠ some "")
    (h3 : st.status.iniType ≠ some "unsupported")
    (h4 : st.status.iniType ≠ some "physical_printer")
    (htm : List.lookup (st.status.iniType.getD "") pm = some tm)
    (hnoarr : ∀ l, List.lookup p tm ≠ some (.many l))
    (hf1 : p ≠ "external_perimeters_first") (hf2 : p ≠ "infill_first")
    (hf3 : p ≠ "ironing")
    (hrule : List.lookup p specialCasesTable = some r) :
    convertParams pm p choice st =
      ⟨.vStr (applyRule r p v choice
          (if st.status.slicerFlavor = some "SuperSlicer"
           then lookupIni st.sourceIni "default_speed" else none) st).1,
       (applyRule r p v choice
          (if st.status.slicerFlavor = some "SuperSlicer"
           then lookupIni st.sourceIni "default_speed" else none) st).2.1,
       (applyRule r p v choice
          (if st.status.slicerFlavor = some "SuperSlicer"
           then lookupIni st.sourceIni "default_speed" else none) st).2.2⟩ := by
  cases hlk : List.lookup p tm with
  | none =>
    by_cases hfl : st.status.slicerFlavor = some "SuperSlicer" <;>
      simp [convertParams, convertParamsCore, hv, truthyS_of_ne hne, hnil, hmv,
        convertParamsRest, h1, h2, h3, h4, htm, hlk, hf1, hf2, hf3,
        specialCase, hrule, hfl]
  | some mv =>
    cases mv with
    | one s =>
      by_cases hfl : st.status.slicerFlavor = some "SuperSlicer" <;>
        simp [convertParams, convertParamsCore, hv, truthyS_of_ne hne, hnil, hmv,
          convertParamsRest, h1, h2, h3, h4, htm, hlk, hf1, hf2, hf3,
          specialCase, hrule, hfl]
    | many l => exact absurd hlk (hnoarr l)

/-- C2 amended: for a compatibility-condition parameter under a valid
profile type, one `convertParams` call behaves as this state machine: a
missing, empty, or `nil` source value produces nothing (`undefined`),
without prompting or touching the slot; otherwise a `DISCARD` slot
produces the empty string without prompting; a `KEEP` slot produces the
source value unchanged without prompting; otherwise the collaborator is
prompted, a string answer is stored in the slot and the source value is
produced on `KEEP` and the empty string on any other answer; a non-string
(cancelled) response produces the empty string and leaves the slot
unchanged. -/
theorem compatible_condition_state_machine
    (pm : PMap) (p : String) (choice : Option String) (st : EngState)
    (tm : List (String × MapVal))
    (hp : p = "compatible_printers_condition" ∨ p = "compatible_prints_condition")
    (h1 : st.status.iniType ≠ none) (h2 : st.status.iniType ≠ some "")
    (h3 : st.status.iniType ≠ some "unsupported")
    (h4 : st.status.iniType ≠ some "physical_printer")
    (htm : List.lookup (st.status.iniType.getD "") pm = some tm)
    (hnoarr : ∀ l, List.lookup p tm ≠ some (.many l)) :
    ((lookupIni st.sourceIni p = none ∨ lookupIni st.sourceIni p = some "" ∨
        lookupIni st.sourceIni p = some "nil") →
      convertParams pm p choice st = ⟨.vNone, st, false⟩) ∧
    (∀ v, lookupIni st.sourceIni p = some v → v ≠ "" → v ≠ "nil" →
      compatSlot p st = some "DISCARD" →
      convertParams pm p choice st = ⟨.vStr "", st, false⟩) ∧
    (∀ v, lookupIni st.sourceIni p = some v → v ≠ "" → v ≠ "nil" →
      compatSlot p st ≠ some "DISCARD" → compatSlot p st = some "KEEP" →
      convertParams pm p choice st = ⟨.vStr v, st, false⟩) ∧
    (∀ v c, lookupIni st.sourceIni p = some v → v ≠ "" → v ≠ "nil" →
      compatSlot p st ≠ some "DISCARD" → compatSlot p st ≠ some "KEEP" →
      choice = some c →
      convertParams pm p choice st =
        ⟨.vStr (if c = "KEEP" then v else ""), compatSetSlot p c st, true⟩) ∧
    (∀ v, lookupIni st.sourceIni p = some v → v ≠ "" → v ≠ "nil" →
      compatSlot p st ≠ some "DISCARD" → compatSlot p st ≠ some "KEEP" →
      choice = none →
      convertParams pm p choice st = ⟨.vStr "", st, true⟩) := by
  refine ⟨?_, ?_, ?_, ?_, ?_⟩
  · intro h
    rcases hp with rfl | rfl <;> rcases h with h | h | h <;>
      simp [convertParams, convertParamsCore, h, truthyS]
  · intro v hv hne hnil hsd
    rcases hp with rfl | rfl <;>
      (rw [convertParams_reaches_rule _ _ _ _ tm v .compatCond hv hne hnil
            (by decide) h1 h2 h3 h4 htm hnoarr (by decide) (by decide) (by decide)
            (by decide)]
       simp only [compatSlot, reduceIte, String.reduceEq] at hsd
       simp [applyRule, handleCompatibleCondition, hsd])
  · intro v hv hne hnil hsd hk
    rcases hp with rfl | rfl <;>
      (rw [convertParams_reaches_rule _ _ _ _ tm v .compatCond hv hne hnil
            (by decide) h1 h2 h3 h4 htm hnoarr (by decide) (by decide) (by decide)
            (by decide)]
       simp only [compatSlot, reduceIte, String.reduceEq] at hsd hk
       simp [applyRule, handleCompatibleCondition, hsd, hk])
  · intro v c hv hne hnil hsd hk hc
    subst hc
    rcases hp with rfl | rfl <;>
      (rw [convertParams_reaches_rule _ _ _ _ tm v .compatCond hv hne hnil
            (by decide) h1 h2 h3 h4 htm hnoarr (by decide) (by decide) (by decide)
            (by decide)]
       simp only [compatSlot, reduceIte, String.reduceEq] at hsd hk
       simp [applyRule, handleCompatibleCondition, hsd, hk, hne, compatSetSlot])
  · intro v hv hne hnil hsd hk hc
    subst hc
    rcases hp with rfl | rfl <;>
      (rw [convertParams_reaches_rule _ _ _ _ tm v .compatCond hv hne hnil
            (by decide) h1 h2 h3 h4 htm hnoarr (by decide) (by decide) (by decide)
            (by decide)]
       simp only [compatSlot, reduceIte, String.reduceEq] at hsd hk
       simp [applyRule, handleCompatibleCondition, hsd, hk, hne])

/-- C2 counterexample: with an empty source value and the slot already
`KEEP`, the claim's state machine produces the source value (the string
`""`), but `convertParams` produces nothing (`undefined`): the falsy-value
check short-circuits before the compatibility rule is reached, and
`undefined` is a distinct outcome from the empty string. -/
theorem compatible_condition_claim_counterexample :
    convertParams pmW "compatible_printers_condition" (some "KEEP") stC2 =
      ⟨.vNone, stC2, false⟩ ∧
    ConvValue.vNone ≠ ConvValue.vStr "" :=
  ⟨by decide, by decide⟩

/-- Witness for C2 (amended) at a concrete undecided state. -/
theorem compatible_condition_state_machine_witness :
    convertParams pmW "compatible_printers_condition" (some "KEEP") stW2 =
      ⟨.vStr "cond", compatSetSlot "compatible_printers_condition" "KEEP" stW2, true⟩ := by
  have h := (compatible_condition_state_machine pmW "compatible_printers_condition"
      (some "KEEP") stW2 [("layer_height", .one "layer_height")]
      (Or.inl rfl) (by decide) (by decide) (by decide) (by decide) (by decide)
      (fun l hl => by simp [List.lookup] at hl)).2.2.2.1
      "cond" "KEEP" (by decide) (by decide) (by decide) (by decide) (by decide) rfl
  rw [h]
  decide

/-- Witness for C8 at a concrete input. -/
theorem combination_flags_update_state_only_witness :
    convertParams pmW "ironing" none stW8 =
      ⟨.vNone,
       { stW8 with status := { stW8.status with
          toVar := { stW8.status.toVar with ironing := some true } } },
       false⟩ := by
  have h := (combination_flags_update_state_only pmW "ironing" none stW8
      [("layer_height", .one "layer_height")] "1"
      (Or.inr (Or.inr rfl)) (by decide) (by decide) (by decide)
      (by decide) (by decide) (by decide) (by decide) (by decide)
      (fun l hl => by simp [List.lookup] at hl)).2
  rw [h]
  decide

/-- Witness for C10 at a concrete input (`snug`, `support_material_auto`
set to the truthy string `"0"`). -/
theorem support_material_style_writes_two_keys_witness :
    List.lookup "support_type"
        (convertParams pmW "support_material_style" none stW10).st.newHash =
      some (.nvStr "normal(auto)") ∧
    List.lookup "support_style"
        (convertParams pmW "support_material_style" none stW10).st.newHash =
      some (.nvStr "snug") ∧
    (convertParams pmW "support_material_style" none stW10).value = .vStr "" := by
  have h := (support_material_style_writes_two_keys pmW none stW10
      [("layer_height", .one "layer_height")] "snug"
      (by decide) (by decide) (by decide) (by decide) (by decide) (by decide)
      (by decide) (by decide) (fun l hl => by simp [List.lookup] at hl)).2.2.2.1
      "normal" "snug" (by decide)
  obtain ⟨e1, e2, e3, -, -⟩ := h
  refine ⟨?_, ?_, e1⟩
  · rw [e2]; decide
  · rw [e3]

/-- C1 counterexample: for the `max_layer_height` rule with the nozzle
size unset, `percentToMm` fails (returns no result) and the rule produces
the empty string, not the original source value `"50%"`. -/
theorem helper_failure_fallback_counterexample :
    convertParams pmW "max_layer_height" none stC1 = ⟨.vStr "", stC1, false⟩ ∧
    percentToMm (some (.strv (nozzleStr stC1.status))) (some "50%") = none ∧
    ("" : String) ≠ "50%" :=
  ⟨by decide, by decide, by decide⟩

/-- Evaluate the special-case dispatch given the table row. -/
theorem specialCase_of_lookup {p : String} {r : Rule}
    (nv : String) (choice ds : Option String) (st : EngState)
    (h : List.lookup p specialCasesTable = some r) :
    specialCase p nv choice ds st = some (applyRule r p nv choice ds st) := by
  simp [specialCase, h]

/-- C1 amended: in every special-case rule that invokes `percentToMm` or
`mmToPercent`, a helper failure (no result) is absorbed into a defined
string: the speed-family rules produce the unmodified source value, while
the dimension rules (`max_layer_height`, `min_layer_height`,
`fuzzy_skin_point_dist`, `fuzzy_skin_thickness`,
`small_perimeter_min_length`, `wall_transition_length`,
`support_material_xy_spacing`) produce the empty string; no failure is
propagated upward. -/
theorem helper_failure_fallback (nv : String) (choice ds : Option String)
    (st : EngState) :
    (∀ p, (p = "max_layer_height" ∨ p = "min_layer_height" ∨
        p = "fuzzy_skin_point_dist" ∨ p = "fuzzy_skin_thickness" ∨
        p = "small_perimeter_min_length") →
      percentToMm (some (.strv (nozzleStr st.status))) (some nv) = none →
      specialCase p nv choice ds st = some ("", st, false)) ∧
    (mmToPercent (some (.strv (nozzleStr st.status))) (some nv) = none →
      specialCase "wall_transition_length" nv choice ds st = some ("", st, false)) ∧
    (percentToMm ((lookupIni st.sourceIni "external_perimeter_extrusion_width").map .strv)
        (some nv) = none →
      percentToMm (some (.strv (nozzleStr st.status))) (some nv) = none →
      specialCase "support_material_xy_spacing" nv choice ds st = some ("", st, false)) ∧
    (∀ p, (p = "external_perimeter_speed" ∨ p = "first_layer_speed") →
      percentToMm ((lookupIni st.sourceIni "perimeter_speed").map .strv) (some nv) = none →
      specialCase p nv choice ds st = some (nv, st, false)) ∧
    (percentToMm (some (.strv (hashStr st.newHash "internal_solid_infill_speed")))
        (some nv) = none →
      specialCase "top_solid_infill_speed" nv choice ds st = some (nv, st, false)) ∧
    (percentToMm ((lookupIni st.sourceIni "support_material_speed").map .strv)
        (some nv) = none →
      specialCase "support_material_interface_speed" nv choice ds st = some (nv, st, false)) ∧
    (percentToMm ((lookupIni st.sourceIni "infill_speed").map .strv)
        (if st.status.slicerFlavor = some "PrusaSlicer"
         then lookupIni st.sourceIni "first_layer_speed" else some nv) = none →
      specialCase "first_layer_infill_speed" nv choice ds st = some (nv, st, false)) ∧
    (percentToMm ((if st.status.slicerFlavor = some "PrusaSlicer"
        then lookupIni st.sourceIni "infill_speed" else ds).map .strv) (some nv) = none →
      specialCase "solid_infill_speed" nv choice ds st = some (nv, st, false)) ∧
    (∀ p, (p = "perimeter_speed" ∨ p = "support_material_speed" ∨ p = "bridge_speed") →
      st.status.slicerFlavor = some "SuperSlicer" →
      percentToMm (ds.map .strv) (some nv) = none →
      specialCase p nv choice ds st = some (nv, st, false)) ∧
    (st.status.slicerFlavor = some "SuperSlicer" →
      percentToMm (some (.strv (hashStr st.newHash "internal_solid_infill_speed")))
        (some nv) = none →
      specialCase "infill_speed" nv choice ds st = some (nv, st, false)) ∧
    (∀ p, (p = "small_perimeter_speed" ∨ p = "gap_fill_speed") →
      st.status.slicerFlavor = some "SuperSlicer" →
      percentToMm (some (.strv (hashStr st.newHash "sparse_infill_speed")))
        (some nv) = none →
      specialCase p nv choice ds st = some (nv, st, false)) := by
  refine ⟨?_, ?_, ?_, ?_, ?_, ?_, ?_, ?_, ?_, ?_, ?_⟩
  · intro p hp hfail
    rcases hp with rfl | rfl | rfl | rfl | rfl <;>
      rw [specialCase_of_lookup nv choice ds st (r := .pctToMmNozzle) (by decide)] <;>
      simp [applyRule, hfail, jsOrOS]
  · intro hfail
    rw [specialCase_of_lookup nv choice ds st (r := .wallTransition) (by decide)]
    simp [applyRule, hfail, jsOrOS]
  · intro hfail1 hfail2
    rw [specialCase_of_lookup nv choice ds st (r := .xySpacing) (by decide)]
    simp [applyRule, hfail1, hfail2, jsOrOS, truthyS]
  · intro p hp hfail
    rcases hp with rfl | rfl <;>
      first
      | rw [specialCase_of_lookup nv choice ds st (r := .extPerimeterSpeed) (by decide)]
          <;> simp [applyRule, hfail, jsOrOS]
      | rw [specialCase_of_lookup nv choice ds st (r := .firstLayerSpeedR) (by decide)]
          <;> simp [applyRule, hfail, jsOrOS]
  · intro hfail
    rw [specialCase_of_lookup nv choice ds st (r := .topSolidSpeed) (by decide)]
    simp [applyRule, hfail, jsOrOS]
  · intro hfail
    rw [specialCase_of_lookup nv choice ds st (r := .smInterfaceSpeed) (by decide)]
    simp [applyRule, hfail, jsOrOS]
  · intro hfail
    rw [specialCase_of_lookup nv choice ds st (r := .firstLayerInfillSpeed) (by decide)]
    simp [applyRule, hfail, jsOrOS]
  · intro hfail
    rw [specialCase_of_lookup nv choice ds st (r := .solidInfillSpeed) (by decide)]
    simp [applyRule, hfail, jsOrOS]
  · intro p hp hflavor hfail
    rcases hp with rfl | rfl | rfl <;>
      first
      | rw [specialCase_of_lookup nv choice ds st (r := .perimeterSpeedR) (by decide)]
          <;> simp [applyRule, hflavor, hfail, jsOrOS]
      | rw [specialCase_of_lookup nv choice ds st (r := .smSpeedR) (by decide)]
          <;> simp [applyRule, hflavor, hfail, jsOrOS]
      | rw [specialCase_of_lookup nv choice ds st (r := .bridgeSpeedR) (by decide)]
          <;> simp [applyRule, hflavor, hfail, jsOrOS]
  · intro hflavor hfail
    rw [specialCase_of_lookup nv choice ds st (r := .infillSpeedR) (by decide)]
    simp [applyRule, hflavor, hfail, jsOrOS]
  · intro p hp hflavor hfail
    rcases hp with rfl | rfl <;>
      first
      | rw [specialCase_of_lookup nv choice ds st (r := .smallPerimeterSpeedR) (by decide)]
          <;> simp [applyRule, hflavor, hfail, jsOrOS]
      | rw [specialCase_of_lookup nv choice ds st (r := .gapFillSpeedR) (by decide)]
          <;> simp [applyRule, hflavor, hfail, jsOrOS]

/-- Witness for C1 (amended): the `max_layer_height` rule at a concrete
failing input. -/
theorem helper_failure_fallback_witness :
    specialCase "max_layer_height" "50%" none none stC1 = some ("", stC1, false) :=
  (helper_failure_fallback "50%" none none stC1).1 "max_layer_height"
    (Or.inl rfl) (by decide)

theorem calcOverhang_lookup_of_ne (st2 : EngState) (e : Bool) (k : String)
    (h1 : k ≠ "overhang_1_4_speed") (h2 : k ≠ "overhang_2_4_speed")
    (h3 : k ≠ "overhang_3_4_speed") (h4 : k ≠ "overhang_4_4_speed") :
    List.lookup k (calcOverhang st2 e).newHash = List.lookup k st2.newHash := by
  unfold calcOverhang
  split
  · rw [lookup_hashSet_ne _ _ _ _ h4, lookup_hashSet_ne _ _ _ _ h3,
      lookup_hashSet_ne _ _ _ _ h2, lookup_hashSet_ne _ _ _ _ h1]
  · rfl

theorem calcOverhang_enabled_lookups (st2 : EngState) :
    List.lookup "overhang_1_4_speed" (calcOverhang st2 true).newHash =
      some (.nvStr (jsOrOS ((overhangSpeeds st2).get? 3) "")) ∧
    List.lookup "overhang_2_4_speed" (calcOverhang st2 true).newHash =
      some (.nvStr (jsOrOS ((overhangSpeeds st2).get? 2) "")) ∧
    List.lookup "overhang_3_4_speed" (calcOverhang st2 true).newHash =
      some (.nvStr (jsOrOS ((overhangSpeeds st2).get? 1) "")) ∧
    List.lookup "overhang_4_4_speed" (calcOverhang st2 true).newHash =
      some (.nvStr (jsOrOS ((overhangSpeeds st2).get? 0) "")) := by
  unfold calcOverhang
  refine ⟨?_, ?_, ?_, ?_⟩
  · rw [if_pos rfl]
    rw [lookup_hashSet_ne _ _ _ _ (by decide), lookup_hashSet_ne _ _ _ _ (by decide),
      lookup_hashSet_ne _ _ _ _ (by decide), lookup_hashSet_self]
  · rw [if_pos rfl]
    rw [lookup_hashSet_ne _ _ _ _ (by decide), lookup_hashSet_ne _ _ _ _ (by decide),
      lookup_hashSet_self]
  · rw [if_pos rfl]
    rw [lookup_hashSet_ne _ _ _ _ (by decide), lookup_hashSet_self]
  · rw [if_pos rfl]
    rw [lookup_hashSet_self]

/-- C4: `calculatePrintParams` always writes the flag
`enable_overhang_speed` recording the (truthiness of the) source's
`enable_dynamic_overhang_speeds`; when it is enabled, the four gathered
threshold speeds (one comma-split field for SuperSlicer, four
discretely-named fields otherwise) are written to the four fixed overhang
output keys in reversed order: output key `overhang_<i>_4_speed` receives
`speeds[4 - i]` (the last gathered speed goes to the first key and the
first gathered speed to the last). -/
theorem overhang_translation (pm : PMap) (st0 : EngState) :
    List.lookup "enable_overhang_speed" (calculatePrintParams pm st0).newHash =
      some (.nvStr (if truthyS (lookupIni st0.sourceIni "enable_dynamic_overhang_speeds")
                    then "1" else "0")) ∧
    (truthyS (lookupIni st0.sourceIni "enable_dynamic_overhang_speeds") = true →
      (List.lookup "overhang_1_4_speed" (calculatePrintParams pm st0).newHash =
        some (.nvStr (jsOrOS ((gatherOverhangSpeeds st0.sourceIni st0.status.slicerFlavor).get? 3) "")) ∧
       List.lookup "overhang_2_4_speed" (calculatePrintParams pm st0).newHash =
        some (.nvStr (jsOrOS ((gatherOverhangSpeeds st0.sourceIni st0.status.slicerFlavor).get? 2) "")) ∧
       List.lookup "overhang_3_4_speed" (calculatePrintParams pm st0).newHash =
        some (.nvStr (jsOrOS ((gatherOverhangSpeeds st0.sourceIni st0.status.slicerFlavor).get? 1) "")) ∧
       List.lookup "overhang_4_4_speed" (calculatePrintParams pm st0).newHash =
        some (.nvStr (jsOrOS ((gatherOverhangSpeeds st0.sourceIni st0.status.slicerFlavor).get? 0) "")))) := by
  obtain ⟨e1, e2⟩ := speedLoop_frame pm none speedSequence st0
  unfold calculatePrintParams
  generalize hs1 : speedLoop pm none speedSequence st0 = s1
  rw [hs1] at e1 e2
  have hover : overhangSpeeds
      { s1 with newHash := (hashSet s1.newHash "enable_overhang_speed"
          (.nvStr (if truthyS (lookupIni s1.sourceIni "enable_dynamic_overhang_speeds")
                   then "1" else "0"))) } =
      gatherOverhangSpeeds st0.sourceIni st0.status.slicerFlavor := by
    unfold overhangSpeeds
    rw [show ({ s1 with newHash := (hashSet s1.newHash "enable_overhang_speed"
        (.nvStr (if truthyS (lookupIni s1.sourceIni "enable_dynamic_overhang_speeds")
                 then "1" else "0"))) } : EngState).sourceIni = s1.sourceIni from rfl]
    rw [e1]
    rw [show ({ s1 with newHash := (hashSet s1.newHash "enable_overhang_speed"
        (.nvStr (if truthyS (lookupIni s1.sourceIni "enable_dynamic_overhang_speeds")
                 then "1" else "0"))) } : EngState).status.slicerFlavor = s1.status.slicerFlavor from rfl]
    rw [e2]
  constructor
  · rw [lookup_hashSet_ne _ _ _ _ (by decide), lookup_hashSet_ne _ _ _ _ (by decide),
      calcOverhang_lookup_of_ne _ _ _ (by decide) (by decide) (by decide) (by decide),
      lookup_hashSet_self]
    rw [show lookupIni s1.sourceIni "enable_dynamic_overhang_speeds" =
        lookupIni st0.sourceIni "enable_dynamic_overhang_speeds" from by
      unfold lookupIni; rw [e1]]
  · intro hen
    have hcond : truthyS (lookupIni s1.sourceIni "enable_dynamic_overhang_speeds") = true := by
      unfold lookupIni at hen ⊢
      rw [e1]
      exact hen
    rw [lookup_hashSet_ne _ _ _ _ (by decide), lookup_hashSet_ne _ _ _ _ (by decide),
      lookup_hashSet_ne _ _ _ _ (by decide), lookup_hashSet_ne _ _ _ _ (by decide),
      lookup_hashSet_ne _ _ _ _ (by decide), lookup_hashSet_ne _ _ _ _ (by decide),
      lookup_hashSet_ne _ _ _ _ (by decide), lookup_hashSet_ne _ _ _ _ (by decide)]
    rw [hcond]
    obtain ⟨g1, g2, g3, g4⟩ := calcOverhang_enabled_lookups
      { s1 with newHash := (hashSet s1.newHash "enable_overhang_speed"
          (.nvStr (if truthyS (lookupIni s1.sourceIni "enable_dynamic_overhang_speeds")
                   then "1" else "0"))) }
    rw [hover] at g1 g2 g3 g4
    exact ⟨by rw [hcond] at g1; exact g1, by rw [hcond] at g2; exact g2,
      by rw [hcond] at g3; exact g3, by rw [hcond] at g4; exact g4⟩

theorem insertDesc_head (x : String × ℕ) (l : List (String × ℕ)) :
    (insertDesc x l).head? = some (match l.head? with
      | none => x
      | some y => if y.2 ≤ x.2 then x else y) := by
  cases l with
  | nil => rfl
  | cons y ys =>
    unfold insertDesc
    split_ifs with h <;> simp [h]

theorem sortDesc_head (l : List (String × ℕ)) :
    (sortDesc l).head? = firstMax l := by
  induction l with
  | nil => rfl
  | cons x xs ih =>
    unfold sortDesc firstMax
    rw [insertDesc_head, ih]
    cases hm : firstMax xs with
    | none => rfl
    | some m => by_cases h : m.2 ≤ x.2 <;> simp [h]

theorem firstMax_cons_isSome (x : String × ℕ) (xs : List (String × ℕ)) :
    (firstMax (x :: xs)).isSome := by
  unfold firstMax
  cases firstMax xs with
  | none => rfl
  | some m => by_cases h : m.2 ≤ x.2 <;> simp [h]

theorem firstMax_spec (l : List (String × ℕ)) (m : String × ℕ)
    (h : firstMax l = some m) :
    ∃ l₁ l₂, l = l₁ ++ m :: l₂ ∧ (∀ p ∈ l₁, p.2 < m.2) ∧ (∀ p ∈ l, p.2 ≤ m.2) := by
  induction l generalizing m with
  | nil => cases h
  | cons x xs ih =>
    unfold firstMax at h
    cases hm : firstMax xs with
    | none =>
      rw [hm] at h
      have h2 : some x = some m := h
      injection h2 with h2
      subst h2
      have hxs : xs = [] := by
        cases xs with
        | nil => rfl
        | cons y ys =>
          have hs := firstMax_cons_isSome y ys
          rw [hm] at hs
          cases hs
      subst hxs
      exact ⟨[], [], rfl, by simp, by simp⟩
    | some mx =>
      rw [hm] at h
      have h2 : (if mx.2 ≤ x.2 then some x else some mx) = some m := h
      by_cases hle : mx.2 ≤ x.2
      · rw [if_pos hle] at h2
        injection h2 with h2
        subst h2
        obtain ⟨l₁, l₂, hdec, hlt, hall⟩ := ih mx hm
        refine ⟨[], xs, rfl, by simp, ?_⟩
        intro p hp
        rcases List.mem_cons.mp hp with rfl | hp
        · exact Nat.le_refl _
        · exact Nat.le_trans (hall p hp) hle
      · rw [if_neg hle] at h2
        injection h2 with h2
        subst h2
        obtain ⟨l₁, l₂, hdec, hlt, hall⟩ := ih mx hm
        refine ⟨x :: l₁, l₂, by rw [hdec, List.cons_append], ?_, ?_⟩
        · intro p hp
          rcases List.mem_cons.mp hp with rfl | hp
          · exact not_le.mp hle
          · exact hlt p hp
        · intro p hp
          rcases List.mem_cons.mp hp with rfl | hp
          · exact Nat.le_of_lt (not_le.mp hle)
          · exact hall p hp

/-- C3: `detectIniType` trusts a non-empty explicit `ini_type` field
verbatim; otherwise, when every candidate type counts fewer than 10 of the
profile's parameter names, it produces nothing; otherwise it returns the
candidate with the highest match count, ties broken by the parameter map's
iteration order (the returned candidate sits after only strictly-smaller
counts and weakly dominates every count). -/
theorem detectIniType_spec (pm : PMap) (src : SrcIni) :
    (∀ t, lookupIni src "ini_type" = some t → t ≠ "" →
      detectIniType pm src = some t) ∧
    ((∀ t, lookupIni src "ini_type" = some t → t = "") →
      (∀ q ∈ typeCounts pm src, q.2 < 10) → detectIniType pm src = none) ∧
    ((∀ t, lookupIni src "ini_type" = some t → t = "") →
      ∀ q ∈ typeCounts pm src, 10 ≤ q.2 →
      ∃ m l₁ l₂, typeCounts pm src = l₁ ++ m :: l₂ ∧
        (∀ p ∈ l₁, p.2 < m.2) ∧ (∀ p ∈ typeCounts pm src, p.2 ≤ m.2) ∧
        detectIniType pm src = some m.1) := by
  refine ⟨?_, ?_, ?_⟩
  · intro t ht htne
    simp [detectIniType, ht, truthyS_of_ne htne]
  · intro hexp hlt
    have htr : truthyS (lookupIni src "ini_type") = false := by
      cases hl : lookupIni src "ini_type" with
      | none => rfl
      | some t => rw [hexp t hl]; rfl
    have hany : ((typeCounts pm src).any fun p => 10 ≤ p.2) = false := by
      rw [List.any_eq_false]
      intro p hp
      simpa using Nat.not_le.mpr (hlt p hp)
    simp [detectIniType, htr, hany]
  · intro hexp q hq hq10
    have htr : truthyS (lookupIni src "ini_type") = false := by
      cases hl : lookupIni src "ini_type" with
      | none => rfl
      | some t => rw [hexp t hl]; rfl
    have hany : ((typeCounts pm src).any fun p => 10 ≤ p.2) = true := by
      rw [List.any_eq_true]
      exact ⟨q, hq, by simpa using hq10⟩
    have hne : typeCounts pm src ≠ [] := by
      intro e
      rw [e] at hq
      cases hq
    obtain ⟨c, cs, hcons⟩ : ∃ c cs, typeCounts pm src = c :: cs := by
      cases hcl : typeCounts pm src with
      | nil => exact absurd hcl hne
      | cons c cs => exact ⟨c, cs, rfl⟩
    have hsome : (firstMax (typeCounts pm src)).isSome := by
      rw [hcons]
      exact firstMax_cons_isSome c cs
    obtain ⟨m, hm⟩ := Option.isSome_iff_exists.mp hsome
    obtain ⟨l₁, l₂, hdec, hlt, hall⟩ := firstMax_spec _ m hm
    refine ⟨m, l₁, l₂, hdec, hlt, hall, ?_⟩
    simp [detectIniType, htr, hany, sortDesc_head, hm]

/-- Witness for C4 at a concrete PrusaSlicer-flavored input. -/
theorem overhang_translation_witness :
    List.lookup "enable_overhang_speed" (calculatePrintParams pmW stW4).newHash =
      some (.nvStr "1") ∧
    List.lookup "overhang_1_4_speed" (calculatePrintParams pmW stW4).newHash =
      some (.nvStr "40") ∧
    List.lookup "overhang_4_4_speed" (calculatePrintParams pmW stW4).newHash =
      some (.nvStr "100") := by
  obtain ⟨hflag, hrest⟩ := overhang_translation pmW stW4
  obtain ⟨g1, -, -, g4⟩ := hrest (by decide)
  refine ⟨?_, ?_, ?_⟩
  · rw [hflag]; decide
  · rw [g1]; decide
  · rw [g4]; decide

/-- Witness for C3: an explicit `ini_type` field is trusted verbatim. -/
theorem detectIniType_spec_witness :
    detectIniType pmW [("ini_type", "print")] = some "print" :=
  (detectIniType_spec pmW [("ini_type", "print")]).1 "print" (by decide) (by decide)

end SS2Orca
